import Mathlib

/-!
# Verification of the change-notification and incremental-sync machinery

Shallow embedding of the sync core of this repository:

* `api/services/syncs/watch_manager.py`          (channel manager)
* `api/routers/webhooks.py`                      (notification receiver)
* `api/services/syncs/sync_gmail.py`             (gmail delta reconciler)
* `api/services/syncs/notification_processor.py` (notification-driven reconciler)
* `api/services/syncs/sync_google_calendar.py`   (calendar full sync)
* `api/services/email/google_api_helpers.py`     (credential refresh)
* `api/routers/cron.py`                          (scheduled jobs)

The managed relational store is modelled as in-memory tables (lists of
rows); store round trips are modelled as reliable.  Provider (Google) API
round trips are modelled by explicit response values, with `Option`/flags
for the fallible calls.  Timestamps are integers (unix seconds), and
Gmail history ids are naturals.
-/

namespace CoreApi

/-- Supabase `update(...).eq(...)` : rewrite every row matching `p` with `f`. -/
def updateWhere (p : α → Bool) (f : α → α) (xs : List α) : List α :=
  xs.map fun x => if p x then f x else x

/-- Supabase `delete().eq(...)` : drop every row matching `p`. -/
def deleteWhere (p : α → Bool) (xs : List α) : List α :=
  xs.filter fun x => !(p x)

/-- Python `list(set(xs))`: one canonical deduplication (membership is all
the source relies on; the iteration order of a Python set is unspecified). -/
def pySet (xs : List String) : List String := xs.dedup

/-! ## Gmail message payloads (`google_api_helpers.py`)

A Gmail `payload` is a MIME tree.  `parse_email_headers`,
`decode_email_body` and `get_attachment_info` walk it.  Body `data` is
modelled as the decoded text (the base64url transport encoding of the
wire format is elided). -/

/-- One entry of `payload['headers']`. -/
structure MsgHeader where
  name : String
  value : String

/-- A MIME part: `mimeType`, `filename`, `body.data`, `body.attachmentId`,
`body.size`, nested `parts`. -/
inductive MimePart where
  | mk (mimeType : String) (filename : String) (bodyData : Option String)
       (attachmentId : Option String) (size : Nat) (parts : List MimePart)

def MimePart.mimeType : MimePart → String | .mk t _ _ _ _ _ => t
def MimePart.filename : MimePart → String | .mk _ f _ _ _ _ => f
def MimePart.bodyData : MimePart → Option String | .mk _ _ d _ _ _ => d
def MimePart.attachmentId : MimePart → Option String | .mk _ _ _ a _ _ => a
def MimePart.size : MimePart → Nat | .mk _ _ _ _ s _ => s
def MimePart.parts : MimePart → List MimePart | .mk _ _ _ _ _ ps => ps

/-- `parse_email_headers`: lower-cased names, keeping only the common ones. -/
def parse_email_headers (headers : List MsgHeader) : List (String × String) :=
  headers.foldl (fun parsed h =>
    let name := h.name.toLower
    if name ∈ ["from", "to", "subject", "date", "cc", "bcc", "message-id",
               "in-reply-to", "references"] then
      parsed ++ [(name, h.value)]
    else parsed) []

/-- Python `dict` lookup on the parsed header alist (later entries win,
as later assignments overwrite in the Python dict). -/
def dictGet (d : List (String × String)) (key : String) : Option String :=
  (d.reverse.find? fun kv => kv.1 = key).map (·.2)

/-- Decoded body state: `result = {'plain': '', 'html': ''}`. -/
structure BodyContent where
  plain : String
  html : String

mutual
/-- `get_body_from_part` of `decode_email_body`. -/
def getBodyFromPart (part : MimePart) (st : BodyContent) : BodyContent :=
  match part with
  | .mk mimeType _ bodyData _ _ parts =>
    if mimeType = "text/plain" then
      match bodyData with
      | some d => { st with plain := d }
      | none => st
    else if mimeType = "text/html" then
      match bodyData with
      | some d => { st with html := d }
      | none => st
    else if mimeType.startsWith "multipart/" then
      getBodyFromParts parts st
    else st

def getBodyFromParts (parts : List MimePart) (st : BodyContent) : BodyContent :=
  match parts with
  | [] => st
  | p :: ps => getBodyFromParts ps (getBodyFromPart p st)
end

/-- `decode_email_body`: top level dispatch on `'parts' in payload`. -/
def decode_email_body (payload : MimePart) : BodyContent :=
  if !payload.parts.isEmpty then
    getBodyFromParts payload.parts { plain := "", html := "" }
  else
    getBodyFromPart payload { plain := "", html := "" }

/-- One extracted attachment record. -/
structure AttachmentInfo where
  filename : String
  mimeType : String
  size : Nat
  attachmentId : String
deriving DecidableEq

mutual
/-- `extract_attachments` of `get_attachment_info`. -/
def extractAttachments (part : MimePart) (acc : List AttachmentInfo) :
    List AttachmentInfo :=
  match part with
  | .mk mimeType filename bodyData attachmentId size parts =>
    let acc :=
      match attachmentId with
      | some aid =>
        if filename ≠ "" then
          acc ++ [{ filename := filename, mimeType := mimeType,
                    size := size, attachmentId := aid }]
        else acc
      | none => acc
    extractAttachmentsList parts acc

def extractAttachmentsList (parts : List MimePart) (acc : List AttachmentInfo) :
    List AttachmentInfo :=
  match parts with
  | [] => acc
  | p :: ps => extractAttachmentsList ps (extractAttachments p acc)
end

/-- `get_attachment_info`. -/
def get_attachment_info (payload : MimePart) : List AttachmentInfo :=
  extractAttachments payload []

/-- A full Gmail message as returned by `messages().get(format='full')`.
`headers` is `payload['headers']`; the body/attachment tree is `payload`. -/
structure GmailMessage where
  id : String
  threadId : String
  snippet : String
  labelIds : List String
  internalDate : Option Int
  sizeEstimate : Nat
  headers : List MsgHeader
  payload : MimePart

/-! ## Table rows -/

/-- The `provider` column of `push_subscriptions`. -/
inductive Provider where
  | gmail
  | calendar
deriving DecidableEq

/-- A row of the `push_subscriptions` table. -/
structure SubRow where
  id : Nat
  userId : Nat
  connectionId : Nat
  provider : Provider
  channelId : String
  resourceId : Option String
  historyId : Option Nat
  syncToken : Option String
  expiration : Int
  isActive : Bool
  notificationCount : Nat
  lastNotificationAt : Option Int
  updatedAt : Option Int
deriving DecidableEq

/-- A row of the `ext_connections` table (the Connection of the spec).
`metaClientId`/`metaClientSecret` mirror `metadata.client_id` /
`metadata.client_secret`. -/
structure ConnRow where
  id : Nat
  userId : Nat
  provider : String
  accessToken : Option String
  refreshToken : Option String
  tokenExpiresAt : Option Int
  isActive : Bool
  metaClientId : Option String
  metaClientSecret : Option String
  lastSynced : Option Int
deriving DecidableEq

/-- The `metadata` JSON column written by
`notification_processor.store_email_from_message`. -/
structure EmailMeta where
  isImportant : Bool
  isDraft : Bool
  sizeEstimate : Nat
  hasAttachments : Bool
  attachments : List AttachmentInfo
  rawItem : GmailMessage

/-- A row of the `emails` table.  The row schema is the union of the
columns written by `notification_processor.store_email_from_message`
(`from_address`, `to_addresses`, `cc_addresses`, `body_text`, `body_html`,
`metadata`) and by `sync_gmail.py` (`from` → `fromAddress`, `to` →
`toAddresses`, `cc` → `ccAddresses`, `body`, `is_draft`,
`has_attachments`, `attachments`, `raw_item`); an update leaves the
columns it does not mention untouched, and an insert leaves absent
columns at empty defaults. -/
structure EmailRow where
  rowId : Nat
  userId : Nat
  extConnectionId : Nat
  externalId : String
  threadId : String
  subject : String
  fromAddress : String
  toAddresses : List String
  ccAddresses : Option (List String)
  bodyText : String
  bodyHtml : String
  body : String
  snippet : String
  labels : List String
  isRead : Bool
  isStarred : Bool
  isDraft : Bool
  receivedAt : Option Int
  hasAttachments : Bool
  attachments : List AttachmentInfo
  metadata : Option EmailMeta
  syncedAt : Int
  updatedAt : Option Int
  rawItem : Option GmailMessage

/-- A fresh `emails` row before the insert dict is applied: every column
at its empty default. -/
def blankEmailRow (rowId : Nat) : EmailRow :=
  { rowId := rowId, userId := 0, extConnectionId := 0, externalId := ""
    threadId := "", subject := "", fromAddress := "", toAddresses := []
    ccAddresses := none, bodyText := "", bodyHtml := "", body := ""
    snippet := "", labels := [], isRead := false, isStarred := false
    isDraft := false, receivedAt := none, hasAttachments := false
    attachments := [], metadata := none, syncedAt := 0, updatedAt := none
    rawItem := none }

/-- `[addr.strip() for addr in h.split(',')] if h else []` for an optional
header value (`None` and `''` are both falsy). -/
def splitAddresses (v : Option String) : List String :=
  match v with
  | none => []
  | some s => if s = "" then [] else (s.splitOn ",").map String.trim

/-! ## Email writers

`notification_processor.store_email_from_message`,
`notification_processor.update_email_labels`, and the per-message upsert
of `sync_gmail.sync_gmail` / `sync_gmail.process_gmail_history` (the two
files duplicate that upsert block verbatim; it is embedded once as
`gmailUpsertMessage`). -/

/-- `notification_processor.store_email_from_message`: parse the full
message and upsert it into `emails` keyed on `(user_id, external_id)`.
Returns the new table and the next fresh row id. -/
def store_email_from_message (emails : List EmailRow) (nextRowId : Nat)
    (userId connId : Nat) (m : GmailMessage) (now : Int) :
    List EmailRow × Nat :=
  let headers := parse_email_headers m.headers
  let bodyc := decode_email_body m.payload
  let labels := m.labelIds
  let receivedAt := m.internalDate.map (· / 1000)
  let isUnread := labels.contains "UNREAD"
  let isStarred := labels.contains "STARRED"
  let isImportant := labels.contains "IMPORTANT"
  let isDraft := labels.contains "DRAFT"
  let atts := get_attachment_info m.payload
  let toAddresses := splitAddresses (dictGet headers "to")
  let ccList := splitAddresses (dictGet headers "cc")
  let applyEmailData : EmailRow → EmailRow := fun r =>
    { r with
      userId := userId, extConnectionId := connId, externalId := m.id
      threadId := m.threadId
      subject := (dictGet headers "subject").getD "(No Subject)"
      fromAddress := (dictGet headers "from").getD ""
      toAddresses := toAddresses
      ccAddresses := if ccList.isEmpty then none else some ccList
      bodyText := bodyc.plain, bodyHtml := bodyc.html
      snippet := m.snippet, labels := labels
      isRead := !isUnread, isStarred := isStarred
      receivedAt := receivedAt
      metadata := some { isImportant := isImportant, isDraft := isDraft
                         sizeEstimate := m.sizeEstimate
                         hasAttachments := !atts.isEmpty
                         attachments := atts, rawItem := m }
      syncedAt := now }
  let existing := emails.filter fun r =>
    r.userId == userId && r.externalId == m.id
  match existing with
  | [] => (emails ++ [applyEmailData (blankEmailRow nextRowId)], nextRowId + 1)
  | e :: _ =>
    (updateWhere (fun r => r.rowId == e.rowId) applyEmailData emails, nextRowId)

/-- `notification_processor.update_email_labels`: merge or strip the
changed label ids into the stored label list and recompute `is_read` /
`is_starred` from the result.  A missing row is a no-op. -/
def update_email_labels (emails : List EmailRow) (userId : Nat)
    (messageId : String) (labels : List String) (action : String)
    (now : Int) : List EmailRow :=
  let found := emails.filter fun r =>
    r.userId == userId && r.externalId == messageId
  match found with
  | [] => emails
  | e :: _ =>
    let newLabels :=
      if action = "add" then pySet (e.labels ++ labels)
      else e.labels.filter fun l => !(labels.contains l)
    let isRead := !(newLabels.contains "UNREAD")
    let isStarred := newLabels.contains "STARRED"
    updateWhere (fun r => r.rowId == e.rowId)
      (fun r => { r with labels := newLabels, isRead := isRead,
                         isStarred := isStarred, updatedAt := some now }) emails

/-- The per-message upsert of `sync_gmail.sync_gmail` (and the verbatim
copy inside `process_gmail_history`'s `messagesAdded` branch): columns
`from`/`to`/`cc`/`body`/`is_draft`/`has_attachments`/`attachments`/
`raw_item`, with `body = plain or html`.  Returns the table, the next
fresh row id, and whether the row already existed (update vs insert). -/
def gmailUpsertMessage (emails : List EmailRow) (nextRowId : Nat)
    (userId connId : Nat) (messageId : String) (m : GmailMessage)
    (now : Int) : List EmailRow × Nat × Bool :=
  let headers := parse_email_headers m.headers
  let bodyc := decode_email_body m.payload
  let labels := m.labelIds
  let receivedAt := m.internalDate.map (· / 1000)
  let isUnread := labels.contains "UNREAD"
  let isStarred := labels.contains "STARRED"
  let isDraft := labels.contains "DRAFT"
  let atts := get_attachment_info m.payload
  let toAddresses := splitAddresses (dictGet headers "to")
  let ccList := splitAddresses (dictGet headers "cc")
  let bodyContent :=
    if bodyc.plain ≠ "" then bodyc.plain else bodyc.html
  let applyEmailData : EmailRow → EmailRow := fun r =>
    { r with
      userId := userId, extConnectionId := connId, externalId := messageId
      threadId := m.threadId
      subject := (dictGet headers "subject").getD "(No Subject)"
      fromAddress := (dictGet headers "from").getD ""
      toAddresses := toAddresses
      ccAddresses := if ccList.isEmpty then none else some ccList
      body := bodyContent
      snippet := m.snippet, labels := labels
      isRead := !isUnread, isStarred := isStarred, isDraft := isDraft
      receivedAt := receivedAt
      hasAttachments := !atts.isEmpty, attachments := atts
      syncedAt := now, rawItem := some m }
  let existing := emails.filter fun r =>
    r.userId == userId && r.externalId == messageId
  match existing with
  | [] => (emails ++ [applyEmailData (blankEmailRow nextRowId)], nextRowId + 1, false)
  | e :: _ =>
    (updateWhere (fun r => r.rowId == e.rowId) applyEmailData emails, nextRowId, true)

/-! ## Watch manager (`watch_manager.py`)

Provider round trips are modelled by explicit outcomes: `Option` responses
for `watch()` calls (`none` = `HttpError` raised) and a Boolean flag for
the best-effort `stop()` call (whose `HttpError` the source catches and
only logs).  The store is the `push_subscriptions` table plus a fresh-id
counter. -/

/-- The `push_subscriptions` table with its id sequence. -/
structure WatchDB where
  subs : List SubRow
  nextId : Nat

/-- `eq('user_id', u).eq('provider', p).eq('is_active', True)`. -/
def isActiveFor (u : Nat) (p : Provider) (r : SubRow) : Bool :=
  decide (r.userId = u ∧ r.provider = p ∧ r.isActive = true)

/-- The active-subscription query used throughout `watch_manager.py`. -/
def activeSubs (db : WatchDB) (u : Nat) (p : Provider) : List SubRow :=
  db.subs.filter (isActiveFor u p)

/-- `update({'is_active': False}).eq('id', sid)`. -/
def deactivateSub (db : WatchDB) (sid : Nat) : WatchDB :=
  let subs' :=
    updateWhere (fun r => r.id == sid)
      (fun r => { r with isActive := false }) db.subs
  { db with subs := subs' }

/-- The `{'success': ..., 'message': ...}` dict returned by the stop
functions. -/
structure StopOutcome where
  success : Bool
  message : String
deriving DecidableEq

/-- `watch_manager.stop_gmail_watch`.  `hasConnection` models
`get_gmail_service` finding an active Google connection;
`providerStopFails` models `users().stop()` raising `HttpError`, which
the source catches — the local row is still marked inactive. -/
def stop_gmail_watch (db : WatchDB) (userId : Nat) (hasConnection : Bool)
    (providerStopFails : Bool) : Except String StopOutcome × WatchDB :=
  if !hasConnection then (.error "No active Google connection found", db)
  else
    match activeSubs db userId .gmail with
    | [] => (.ok { success := true, message := "No active watch to stop" }, db)
    | sub :: _ =>
      let _ := providerStopFails
      (.ok { success := true, message := "Gmail watch stopped" },
       deactivateSub db sub.id)

/-- `watch_manager.stop_calendar_watch`.  The provider `channels().stop()`
call is attempted only when both `channel_id` and `resource_id` are
present, and its `HttpError` is caught; either way the local row is
marked inactive. -/
def stop_calendar_watch (db : WatchDB) (userId : Nat) (hasConnection : Bool)
    (providerStopFails : Bool) : Except String StopOutcome × WatchDB :=
  if !hasConnection then (.error "No active Google connection found", db)
  else
    match activeSubs db userId .calendar with
    | [] => (.ok { success := true, message := "No active watch to stop" }, db)
    | sub :: _ =>
      let _ := providerStopFails
      (.ok { success := true, message := "Calendar watch stopped" },
       deactivateSub db sub.id)

/-- The Gmail `users().watch()` response: `historyId` and an optional
`expiration` in milliseconds. -/
structure GmailWatchResponse where
  historyId : Option Nat
  expirationMs : Option Int
deriving DecidableEq

/-- The Calendar `events().watch()` response. -/
structure CalendarWatchResponse where
  resourceId : Option String
  expirationMs : Option Int
deriving DecidableEq

/-- The success dict returned by the start functions. -/
structure StartOutcome where
  success : Bool
  provider : Provider
  channelId : String
  historyId : Option Nat
  syncToken : Option String
  expiration : Int
  subscriptionId : Nat
deriving DecidableEq

/-- `GMAIL_WATCH_EXPIRATION_DAYS = 7` (seconds per day spelt out since
expirations are unix seconds here). -/
def GMAIL_WATCH_EXPIRATION_DAYS : Int := 7

/-- `CALENDAR_WATCH_EXPIRATION_DAYS = 7`. -/
def CALENDAR_WATCH_EXPIRATION_DAYS : Int := 7

/-- `watch_manager.start_gmail_watch`: if an active Gmail subscription
exists it is stopped first (best effort — any exception from the stop is
caught and logged); then the provider watch is started (`none` response =
`HttpError`, surfaced as an error with no row inserted) and a new active
row is inserted carrying the returned cursor and expiration, defaulting
the expiration to now + 7 days when the provider omits it. -/
def start_gmail_watch (db : WatchDB) (userId connId : Nat)
    (hasConnection : Bool) (stopProviderFails : Bool) (channelId : String)
    (watchResp : Option GmailWatchResponse) (now : Int) :
    Except String StartOutcome × WatchDB :=
  if !hasConnection then
    (.error "No active Google connection found for user", db)
  else
    let existing := activeSubs db userId .gmail
    let db1 :=
      if !existing.isEmpty then
        (stop_gmail_watch db userId hasConnection stopProviderFails).2
      else db
    match watchResp with
    | none => (.error "Failed to start Gmail watch", db1)
    | some resp =>
      let expiration :=
        match resp.expirationMs with
        | some ms => ms / 1000
        | none => now + GMAIL_WATCH_EXPIRATION_DAYS * 86400
      let row : SubRow :=
        { id := db1.nextId, userId := userId, connectionId := connId,
          provider := .gmail, channelId := channelId, resourceId := none,
          historyId := resp.historyId, syncToken := none,
          expiration := expiration, isActive := true,
          notificationCount := 0, lastNotificationAt := none,
          updatedAt := none }
      (.ok { success := true, provider := .gmail, channelId := channelId,
             historyId := resp.historyId, syncToken := none,
             expiration := expiration, subscriptionId := db1.nextId },
       { subs := db1.subs ++ [row], nextId := db1.nextId + 1 })

/-- `watch_manager.start_calendar_watch`: same shape as the Gmail start;
the expiration is requested as now + 7 days and overridden by the
provider's returned expiration when present; the initial sync token fetch
is best-effort (`none` = missing or failed). -/
def start_calendar_watch (db : WatchDB) (userId connId : Nat)
    (hasConnection : Bool) (stopProviderFails : Bool) (channelId : String)
    (watchResp : Option CalendarWatchResponse) (syncToken : Option String)
    (now : Int) : Except String StartOutcome × WatchDB :=
  if !hasConnection then
    (.error "No active Google connection found for user", db)
  else
    let existing := activeSubs db userId .calendar
    let db1 :=
      if !existing.isEmpty then
        (stop_calendar_watch db userId hasConnection stopProviderFails).2
      else db
    match watchResp with
    | none => (.error "Failed to start Calendar watch", db1)
    | some resp =>
      let expiration :=
        match resp.expirationMs with
        | some ms => ms / 1000
        | none => now + CALENDAR_WATCH_EXPIRATION_DAYS * 86400
      let row : SubRow :=
        { id := db1.nextId, userId := userId, connectionId := connId,
          provider := .calendar, channelId := channelId,
          resourceId := resp.resourceId, historyId := none,
          syncToken := syncToken, expiration := expiration,
          isActive := true, notificationCount := 0,
          lastNotificationAt := none, updatedAt := none }
      (.ok { success := true, provider := .calendar, channelId := channelId,
             historyId := none, syncToken := syncToken,
             expiration := expiration, subscriptionId := db1.nextId },
       { subs := db1.subs ++ [row], nextId := db1.nextId + 1 })

/-- `watch_manager.renew_watch`: dispatches to the matching start. -/
def renew_watch (db : WatchDB) (userId connId : Nat) (hasConnection : Bool)
    (stopProviderFails : Bool) (channelId : String)
    (gmailResp : Option GmailWatchResponse)
    (calResp : Option CalendarWatchResponse) (syncToken : Option String)
    (now : Int) : Provider → Except String StartOutcome × WatchDB
  | .gmail => start_gmail_watch db userId connId hasConnection
      stopProviderFails channelId gmailResp now
  | .calendar => start_calendar_watch db userId connId hasConnection
      stopProviderFails channelId calResp syncToken now

/-- One call into the watch manager, with the provider outcomes it
observed. -/
inductive WatchOp where
  | startGmail (userId connId : Nat) (hasConn stopFail : Bool)
      (channelId : String) (resp : Option GmailWatchResponse) (now : Int)
  | startCalendar (userId connId : Nat) (hasConn stopFail : Bool)
      (channelId : String) (resp : Option CalendarWatchResponse)
      (syncToken : Option String) (now : Int)
  | stopGmail (userId : Nat) (hasConn provFail : Bool)
  | stopCalendar (userId : Nat) (hasConn provFail : Bool)
  | renew (userId connId : Nat) (hasConn stopFail : Bool)
      (channelId : String) (gmailResp : Option GmailWatchResponse)
      (calResp : Option CalendarWatchResponse) (syncToken : Option String)
      (now : Int) (provider : Provider)

/-- The store state reached after one watch-manager call. -/
def applyWatchOp (db : WatchDB) : WatchOp → WatchDB
  | .startGmail u c hc sf ch r n =>
    (start_gmail_watch db u c hc sf ch r n).2
  | .startCalendar u c hc sf ch r tok n =>
    (start_calendar_watch db u c hc sf ch r tok n).2
  | .stopGmail u hc pf => (stop_gmail_watch db u hc pf).2
  | .stopCalendar u hc pf => (stop_calendar_watch db u hc pf).2
  | .renew u c hc sf ch gr cr tok n p =>
    (renew_watch db u c hc sf ch gr cr tok n p).2

/-- The store state after a sequence of watch-manager calls. -/
def runWatchOps (db : WatchDB) (ops : List WatchOp) : WatchDB :=
  ops.foldl applyWatchOp db

/-- The empty `push_subscriptions` table. -/
def emptyWatchDB : WatchDB := { subs := [], nextId := 1 }

/-! ## Notification receiver (`api/routers/webhooks.py`)

Each handler wraps its whole body in `try/except` and returns a JSON
dict in every path; FastAPI renders a returned dict as HTTP 200.
`storeFails` models an arbitrary exception raised inside the `try` block
(e.g. the store round trip failing), which the handler catches and turns
into a `{"status": "error"}` acknowledgment — still HTTP 200.
`dispatched` records the reconciliations the handler hands off for
background processing; the source only logs that it would queue one. -/

/-- The acknowledgment dict `{"status": ..., "message": ...}`. -/
structure WebhookBody where
  status : String
  message : String
deriving DecidableEq

/-- The observable outcome of one webhook invocation. -/
structure WebhookResult where
  httpStatus : Nat
  body : WebhookBody
  subs : List SubRow
  dispatched : List String
deriving DecidableEq

/-- The `try` block of `gmail_webhook` (the `sync` and `no active
subscription` paths return early; a matched `exists` notification falls
through to the final acknowledgment). -/
def gmailWebhookBody (subs : List SubRow)
    (channelId resourceState : Option String) (now : Int)
    (storeFails : Bool) :
    Except String (WebhookBody × List SubRow × List String) :=
  if resourceState = some "sync" then
    .ok (⟨"ok", "Sync verified"⟩, subs, [])
  else if resourceState = some "exists" then
    if storeFails then .error "store error"
    else
      let matching := subs.filter fun r =>
        decide (some r.channelId = channelId ∧ r.provider = Provider.gmail ∧
                r.isActive = true)
      match matching with
      | [] => .ok (⟨"ok", "No active subscription"⟩, subs, [])
      | sub :: _ =>
        let subs' := updateWhere (fun r => r.id == sub.id)
          (fun r => { r with notificationCount := sub.notificationCount + 1,
                             lastNotificationAt := some now }) subs
        -- the inner `try` only logs "queued for processing"; nothing is
        -- dispatched to the reconciler
        .ok (⟨"ok", "Notification received"⟩, subs', [])
  else
    .ok (⟨"ok", "Notification received"⟩, subs, [])

/-- `POST /api/webhooks/gmail`: the body under the catch-all
`except Exception` that acknowledges even on internal failure. -/
def gmail_webhook (subs : List SubRow)
    (channelId resourceState : Option String) (now : Int)
    (storeFails : Bool) : WebhookResult :=
  match gmailWebhookBody subs channelId resourceState now storeFails with
  | .ok (b, s, d) =>
    { httpStatus := 200, body := b, subs := s, dispatched := d }
  | .error e =>
    { httpStatus := 200, body := ⟨"error", e⟩, subs := subs,
      dispatched := [] }

/-- The `try` block of `calendar_webhook`. -/
def calendarWebhookBody (subs : List SubRow)
    (channelId resourceState : Option String) (now : Int)
    (storeFails : Bool) :
    Except String (WebhookBody × List SubRow × List String) :=
  if resourceState = some "sync" then
    .ok (⟨"ok", "Sync verified"⟩, subs, [])
  else if resourceState = some "exists" then
    if storeFails then .error "store error"
    else
      let matching := subs.filter fun r =>
        decide (some r.channelId = channelId ∧ r.provider = Provider.calendar ∧
                r.isActive = true)
      match matching with
      | [] => .ok (⟨"ok", "No active subscription"⟩, subs, [])
      | sub :: _ =>
        let subs' := updateWhere (fun r => r.id == sub.id)
          (fun r => { r with notificationCount := sub.notificationCount + 1,
                             lastNotificationAt := some now }) subs
        .ok (⟨"ok", "Notification received"⟩, subs', [])
  else
    .ok (⟨"ok", "Notification received"⟩, subs, [])

/-- `POST /api/webhooks/calendar`. -/
def calendar_webhook (subs : List SubRow)
    (channelId resourceState : Option String) (now : Int)
    (storeFails : Bool) : WebhookResult :=
  match calendarWebhookBody subs channelId resourceState now storeFails with
  | .ok (b, s, d) =>
    { httpStatus := 200, body := b, subs := s, dispatched := d }
  | .error e =>
    { httpStatus := 200, body := ⟨"error", e⟩, subs := subs,
      dispatched := [] }

/-! ## Gmail delta reconciler (`sync_gmail.py`)

The provider change log: a `history.list` response is a list of history
records plus the latest `historyId`; full messages are fetched through a
lookup `fetch` (with `none` = the per-message `get` raising). -/

/-- One `labelsAdded`/`labelsRemoved` entry. -/
structure LabelChange where
  messageId : String
  labelIds : List String

/-- One history record (absent keys are empty lists). -/
structure HistoryRecord where
  messagesAdded : List String
  messagesDeleted : List String
  labelsAdded : List LabelChange
  labelsRemoved : List LabelChange

/-- A `users().history().list` response. -/
structure GmailHistoryResponse where
  history : List HistoryRecord
  historyId : Option Nat

/-- The `labelsAdded` branch of `process_gmail_history` (`sync_gmail.py`
lines 471-500): merge the label ids, recompute `is_read`/`is_starred`
from the merged list, update keyed on `(user_id, external_id)`; counts
one update when the row exists. -/
def historyLabelAdd (emails : List EmailRow) (userId : Nat)
    (lc : LabelChange) : List EmailRow × Nat :=
  let existing := emails.filter fun r =>
    r.userId == userId && r.externalId == lc.messageId
  match existing with
  | [] => (emails, 0)
  | e :: _ =>
    let newLabels := pySet (e.labels ++ lc.labelIds)
    let isRead := !(newLabels.contains "UNREAD")
    let isStarred := newLabels.contains "STARRED"
    (updateWhere (fun r => r.userId == userId && r.externalId == lc.messageId)
      (fun r => { r with labels := newLabels, isRead := isRead,
                         isStarred := isStarred }) emails, 1)

/-- The `labelsRemoved` branch of `process_gmail_history`. -/
def historyLabelRemove (emails : List EmailRow) (userId : Nat)
    (lc : LabelChange) : List EmailRow × Nat :=
  let existing := emails.filter fun r =>
    r.userId == userId && r.externalId == lc.messageId
  match existing with
  | [] => (emails, 0)
  | e :: _ =>
    let newLabels := e.labels.filter fun l => !(lc.labelIds.contains l)
    let isRead := !(newLabels.contains "UNREAD")
    let isStarred := newLabels.contains "STARRED"
    (updateWhere (fun r => r.userId == userId && r.externalId == lc.messageId)
      (fun r => { r with labels := newLabels, isRead := isRead,
                         isStarred := isStarred }) emails, 1)

/-- The `messagesAdded` loop of `process_gmail_history`: fetch each full
message (the external id taken from the history stub) and upsert; a
failed fetch is caught per message and skipped.  Returns the table, the
next fresh row id, and the (added, updated) counts. -/
def historyAddedLoop (userId connId : Nat)
    (fetch : String → Option GmailMessage) (now : Int) :
    List String → List EmailRow → Nat → List EmailRow × Nat × Nat × Nat
  | [], emails, nextRowId => (emails, nextRowId, 0, 0)
  | mid :: rest, emails, nextRowId =>
    match fetch mid with
    | none => historyAddedLoop userId connId fetch now rest emails nextRowId
    | some m =>
      let (e1, n1, existed) :=
        gmailUpsertMessage emails nextRowId userId connId mid m now
      let (e2, n2, a, u) := historyAddedLoop userId connId fetch now rest e1 n1
      (e2, n2, a + (if existed then 0 else 1), u + (if existed then 1 else 0))

/-- The `messagesDeleted` loop of `process_gmail_history`: delete rows
keyed on `(user_id, external_id)`; the deleted counter only advances
when something was actually deleted. -/
def historyDeletedLoop (userId : Nat) :
    List String → List EmailRow → List EmailRow × Nat
  | [], emails => (emails, 0)
  | mid :: rest, emails =>
    let matched := emails.filter fun r =>
      r.userId == userId && r.externalId == mid
    let e1 := deleteWhere (fun r => r.userId == userId && r.externalId == mid)
      emails
    let (e2, d) := historyDeletedLoop userId rest e1
    (e2, d + (if matched.isEmpty then 0 else 1))

/-- The `labelsAdded` loop. -/
def historyLabelAddLoop (userId : Nat) :
    List LabelChange → List EmailRow → List EmailRow × Nat
  | [], emails => (emails, 0)
  | lc :: rest, emails =>
    let (e1, u1) := historyLabelAdd emails userId lc
    let (e2, u2) := historyLabelAddLoop userId rest e1
    (e2, u1 + u2)

/-- The `labelsRemoved` loop. -/
def historyLabelRemoveLoop (userId : Nat) :
    List LabelChange → List EmailRow → List EmailRow × Nat
  | [], emails => (emails, 0)
  | lc :: rest, emails =>
    let (e1, u1) := historyLabelRemove emails userId lc
    let (e2, u2) := historyLabelRemoveLoop userId rest e1
    (e2, u1 + u2)

/-- Counts accumulated over history records. -/
structure HistCounts where
  added : Nat
  updated : Nat
  deleted : Nat
deriving DecidableEq

/-- Processing of one history record: added, then deleted, then label
changes. -/
def processHistoryRecord (userId connId : Nat)
    (fetch : String → Option GmailMessage) (now : Int)
    (rec : HistoryRecord) (emails : List EmailRow) (nextRowId : Nat) :
    List EmailRow × Nat × HistCounts :=
  let (e1, n1, a, u1) :=
    historyAddedLoop userId connId fetch now rec.messagesAdded emails nextRowId
  let (e2, d) := historyDeletedLoop userId rec.messagesDeleted e1
  let (e3, u2) := historyLabelAddLoop userId rec.labelsAdded e2
  let (e4, u3) := historyLabelRemoveLoop userId rec.labelsRemoved e3
  (e4, n1, { added := a, updated := u1 + u2 + u3, deleted := d })

/-- The record loop of `process_gmail_history`. -/
def processHistoryRecords (userId connId : Nat)
    (fetch : String → Option GmailMessage) (now : Int) :
    List HistoryRecord → List EmailRow → Nat →
    List EmailRow × Nat × HistCounts
  | [], emails, nextRowId =>
    (emails, nextRowId, { added := 0, updated := 0, deleted := 0 })
  | rec :: rest, emails, nextRowId =>
    let (e1, n1, c1) :=
      processHistoryRecord userId connId fetch now rec emails nextRowId
    let (e2, n2, c2) := processHistoryRecords userId connId fetch now rest e1 n1
    (e2, n2, { added := c1.added + c2.added,
               updated := c1.updated + c2.updated,
               deleted := c1.deleted + c2.deleted })

/-- The store state touched by `process_gmail_history`. -/
structure HistorySyncState where
  emails : List EmailRow
  conns : List ConnRow
  subs : List SubRow
  nextRowId : Nat

/-- The result dict of `process_gmail_history`. -/
structure HistoryOutcome where
  message : String
  status : String
  newEmails : Nat
  updatedEmails : Nat
  deletedEmails : Nat
  newHistoryId : Nat
deriving DecidableEq

/-- `sync_gmail.process_gmail_history`: fetch the change log from the
stored cursor and apply it.  Presupposes `get_gmail_service` found an
active connection (the guard path raises and writes nothing).  With no
history records it returns immediately — the `ext_connections.last_synced`
and `push_subscriptions.history_id` updates at the end of the function
are skipped on that path. -/
def process_gmail_history (st : HistorySyncState) (userId connId : Nat)
    (startHistoryId : Nat) (resp : GmailHistoryResponse)
    (fetch : String → Option GmailMessage) (now : Int) :
    HistoryOutcome × HistorySyncState :=
  let newHistoryId := resp.historyId.getD startHistoryId
  if resp.history.isEmpty then
    ({ message := "No changes to sync", status := "completed",
       newEmails := 0, updatedEmails := 0, deletedEmails := 0,
       newHistoryId := newHistoryId }, st)
  else
    let (emails', nid', counts) :=
      processHistoryRecords userId connId fetch now resp.history
        st.emails st.nextRowId
    let conns' := updateWhere (fun c => c.id == connId)
      (fun c => { c with lastSynced := some now }) st.conns
    let subs' := updateWhere (isActiveFor userId .gmail)
      (fun s => { s with historyId := some newHistoryId,
                         lastNotificationAt := some now }) st.subs
    ({ message := "History sync completed successfully",
       status := "completed", newEmails := counts.added,
       updatedEmails := counts.updated, deletedEmails := counts.deleted,
       newHistoryId := newHistoryId },
     { emails := emails', conns := conns', subs := subs',
       nextRowId := nid' })

/-- The per-message loop of `sync_gmail.sync_gmail` over the fetched
message list (`none` = the per-message `get` raising, counted as an
error and skipped).  Returns table, next row id, (new, updated, errors). -/
def syncGmailLoop (userId connId : Nat) (now : Int) :
    List (Option GmailMessage) → List EmailRow → Nat →
    List EmailRow × Nat × Nat × Nat × Nat
  | [], emails, nextRowId => (emails, nextRowId, 0, 0, 0)
  | none :: rest, emails, nextRowId =>
    let (e, n, a, u, er) := syncGmailLoop userId connId now rest emails nextRowId
    (e, n, a, u, er + 1)
  | some m :: rest, emails, nextRowId =>
    let (e1, n1, existed) :=
      gmailUpsertMessage emails nextRowId userId connId m.id m now
    let (e2, n2, a, u, er) := syncGmailLoop userId connId now rest e1 n1
    (e2, n2, a + (if existed then 0 else 1), u + (if existed then 1 else 0), er)

/-- The result dict of `sync_gmail`. -/
structure GmailSyncOutcome where
  status : String
  newEmails : Nat
  updatedEmails : Nat
  errors : Nat
deriving DecidableEq

/-- `sync_gmail.sync_gmail`: upsert the listed messages and stamp
`ext_connections.last_synced` (skipped, like everything else, when the
message list is empty).  Presupposes an active connection. -/
def sync_gmail (emails : List EmailRow) (conns : List ConnRow)
    (nextRowId : Nat) (userId connId : Nat)
    (msgs : List (Option GmailMessage)) (now : Int) :
    GmailSyncOutcome × List EmailRow × List ConnRow × Nat :=
  if msgs.isEmpty then
    ({ status := "completed", newEmails := 0, updatedEmails := 0,
       errors := 0 }, emails, conns, nextRowId)
  else
    let (e, n, a, u, er) := syncGmailLoop userId connId now msgs emails nextRowId
    let conns' := updateWhere (fun c => c.id == connId)
      (fun c => { c with lastSynced := some now }) conns
    ({ status := "completed", newEmails := a, updatedEmails := u,
       errors := er }, e, conns', n)

/-! ## Notification-driven reconciler (`notification_processor.py`) -/

/-- The result dict of `process_gmail_history_changes`. -/
structure ChangesResult where
  changesProcessed : Nat
  latestHistoryId : Option Nat
deriving DecidableEq

/-- The `messagesAdded` loop of `process_gmail_history_changes`: here a
failed per-message fetch is NOT caught — it aborts the whole function. -/
def npAddedLoop (userId connId : Nat)
    (fetch : String → Option GmailMessage) (now : Int) :
    List String → List EmailRow → Nat →
    Except String (List EmailRow × Nat × Nat)
  | [], emails, nextRowId => .ok (emails, nextRowId, 0)
  | mid :: rest, emails, nextRowId =>
    match fetch mid with
    | none => .error ("failed to fetch message " ++ mid)
    | some m =>
      let (e1, n1) := store_email_from_message emails nextRowId userId connId m now
      match npAddedLoop userId connId fetch now rest e1 n1 with
      | .error e => .error e
      | .ok (e2, n2, c) => .ok (e2, n2, c + 1)

/-- The `messagesDeleted` loop of `process_gmail_history_changes`: each
delete counts one change. -/
def npDeletedLoop (userId : Nat) :
    List String → List EmailRow → List EmailRow × Nat
  | [], emails => (emails, 0)
  | mid :: rest, emails =>
    let e1 := deleteWhere (fun r => r.userId == userId && r.externalId == mid)
      emails
    let (e2, c) := npDeletedLoop userId rest e1
    (e2, c + 1)

/-- The label loops of `process_gmail_history_changes`: each change is
routed through `update_email_labels` and counts one change. -/
def npLabelLoop (userId : Nat) (action : String) (now : Int) :
    List LabelChange → List EmailRow → List EmailRow × Nat
  | [], emails => (emails, 0)
  | lc :: rest, emails =>
    let e1 := update_email_labels emails userId lc.messageId lc.labelIds
      action now
    let (e2, c) := npLabelLoop userId action now rest e1
    (e2, c + 1)

/-- The record loop of `process_gmail_history_changes`. -/
def npRecordLoop (userId connId : Nat)
    (fetch : String → Option GmailMessage) (now : Int) :
    List HistoryRecord → List EmailRow → Nat →
    Except String (List EmailRow × Nat × Nat)
  | [], emails, nextRowId => .ok (emails, nextRowId, 0)
  | rec :: rest, emails, nextRowId =>
    match npAddedLoop userId connId fetch now rec.messagesAdded emails nextRowId with
    | .error e => .error e
    | .ok (e1, n1, c1) =>
      let (e2, c2) := npDeletedLoop userId rec.messagesDeleted e1
      let (e3, c3) := npLabelLoop userId "add" now rec.labelsAdded e2
      let (e4, c4) := npLabelLoop userId "remove" now rec.labelsRemoved e3
      match npRecordLoop userId connId fetch now rest e4 n1 with
      | .error e => .error e
      | .ok (e5, n5, c5) => .ok (e5, n5, c1 + c2 + c3 + c4 + c5)

/-- `notification_processor.process_gmail_history_changes`: look up the
connection (raising when missing), fetch the change log from
`startHistoryId`, and with no records return `{changes_processed: 0,
latest_history_id}` without touching the store; otherwise apply every
record.  This function does not itself persist the cursor — its caller
does. -/
def process_gmail_history_changes (emails : List EmailRow)
    (conns : List ConnRow) (nextRowId : Nat) (userId : Nat)
    (startHistoryId : Option Nat) (connectionId : Nat)
    (resp : GmailHistoryResponse) (fetch : String → Option GmailMessage)
    (now : Int) : Except String ChangesResult × List EmailRow × Nat :=
  let _ := startHistoryId
  match conns.find? fun c => c.id == connectionId with
  | none => (.error "Connection not found", emails, nextRowId)
  | some _ =>
    if resp.history.isEmpty then
      (.ok { changesProcessed := 0, latestHistoryId := resp.historyId },
       emails, nextRowId)
    else
      match npRecordLoop userId connectionId fetch now resp.history emails nextRowId with
      | .error e => (.error e, emails, nextRowId)
      | .ok (e1, n1, c) =>
        (.ok { changesProcessed := c, latestHistoryId := resp.historyId },
         e1, n1)

/-- The Pub/Sub notification payload (`data`), carrying the pushed
`historyId` when present. -/
structure NotificationData where
  historyId : Option Nat
deriving DecidableEq

/-- The result dict of the notification processors. -/
structure NotifOutcome where
  success : Bool
  error : Option String
  changesProcessed : Nat
  newHistoryId : Option Nat
deriving DecidableEq

/-- The store state touched by the notification processors. -/
structure NotifState where
  emails : List EmailRow
  conns : List ConnRow
  subs : List SubRow
  nextRowId : Nat

/-- `notification_processor.process_gmail_notification`: ignore `sync`
handshakes; look up the active Gmail subscription by channel id (the
`ext_connections!inner` join drops rows whose connection is missing);
run the history changes from its stored cursor; then persist
`data['historyId'] or result['latest_history_id']` — when that is
non-null — onto the subscription together with the notification counter
and timestamps.  Exceptions are caught into a failure dict. -/
def process_gmail_notification (st : NotifState) (channelId : String)
    (resourceState : String) (data : NotificationData)
    (resp : GmailHistoryResponse) (fetch : String → Option GmailMessage)
    (now : Int) : NotifOutcome × NotifState :=
  if resourceState = "sync" then
    ({ success := true, error := none, changesProcessed := 0,
       newHistoryId := none }, st)
  else
    let matching := st.subs.filter fun r =>
      decide (r.channelId = channelId ∧ r.provider = Provider.gmail ∧
              r.isActive = true) &&
      (st.conns.find? fun c => c.id == r.connectionId).isSome
    match matching with
    | [] =>
      ({ success := false, error := some "Subscription not found",
         changesProcessed := 0, newHistoryId := none }, st)
    | sub :: _ =>
      let userId :=
        match st.conns.find? fun c => c.id == sub.connectionId with
        | some c => c.userId
        | none => 0
      match process_gmail_history_changes st.emails st.conns st.nextRowId
          userId sub.historyId sub.connectionId resp fetch now with
      | (.error e, e1, n1) =>
        ({ success := false, error := some e, changesProcessed := 0,
           newHistoryId := none }, { st with emails := e1, nextRowId := n1 })
      | (.ok res, e1, n1) =>
        let newHistoryId := data.historyId <|> res.latestHistoryId
        let subs' :=
          match newHistoryId with
          | none => st.subs
          | some h =>
            updateWhere (fun r => r.id == sub.id)
              (fun r => { r with historyId := some h,
                                 lastNotificationAt := some now,
                                 notificationCount := sub.notificationCount + 1,
                                 updatedAt := some now }) st.subs
        ({ success := true, error := none,
           changesProcessed := res.changesProcessed,
           newHistoryId := newHistoryId },
         { emails := e1, conns := st.conns, subs := subs', nextRowId := n1 })

/-! ## Calendar reconciler (`notification_processor.py`,
`sync_google_calendar.py`) -/

/-- A Google Calendar `start`/`end` value: either an all-day `date` or a
timed `dateTime`. -/
structure EventTime where
  date : Option String
  dateTime : Option String
deriving DecidableEq

/-- A provider calendar event (`finish` embeds the `end` key). -/
structure CalendarEvent where
  id : String
  summary : Option String
  description : Option String
  location : Option String
  status : Option String
  start : EventTime
  finish : EventTime
deriving DecidableEq

/-- A row of the `calendar_events` table. -/
structure EventRow where
  rowId : Nat
  userId : Nat
  extConnectionId : Nat
  externalId : String
  title : String
  description : Option String
  location : Option String
  startTime : Option String
  endTime : Option String
  isAllDay : Bool
  status : String
  syncedAt : Int
  rawItem : CalendarEvent
deriving DecidableEq

/-- The shared `event_data` upsert (identical dicts in
`store_calendar_event` and `sync_google_calendar`): normalize the
all-day vs timed start/end and upsert keyed on `(user_id, external_id)`.
Returns the table, the next fresh row id, and whether the row existed. -/
def calendarUpsertEvent (events : List EventRow) (nextRowId : Nat)
    (userId connId : Nat) (ev : CalendarEvent) (now : Int) :
    List EventRow × Nat × Bool :=
  let isAllDay := ev.start.date.isSome
  let startTime :=
    if isAllDay then ev.start.date.map (· ++ "T00:00:00Z")
    else ev.start.dateTime
  let endTime :=
    if isAllDay then ev.finish.date.map (· ++ "T23:59:59Z")
    else ev.finish.dateTime
  let applyEventData : EventRow → EventRow := fun r =>
    { r with
      userId := userId, extConnectionId := connId, externalId := ev.id
      title := ev.summary.getD "Untitled Event"
      description := ev.description, location := ev.location
      startTime := startTime, endTime := endTime, isAllDay := isAllDay
      status := ev.status.getD "confirmed"
      syncedAt := now, rawItem := ev }
  let blank : EventRow :=
    { rowId := nextRowId, userId := 0, extConnectionId := 0,
      externalId := "", title := "", description := none, location := none,
      startTime := none, endTime := none, isAllDay := false, status := "",
      syncedAt := 0, rawItem := ev }
  let existing := events.filter fun r =>
    r.userId == userId && r.externalId == ev.id
  match existing with
  | [] => (events ++ [applyEventData blank], nextRowId + 1, false)
  | e :: _ =>
    (updateWhere (fun r => r.rowId == e.rowId) applyEventData events,
     nextRowId, true)

/-- `notification_processor.store_calendar_event`: a `cancelled` status
deletes every row keyed `(user_id, external_id)`; any other event is
upserted. -/
def store_calendar_event (events : List EventRow) (nextRowId : Nat)
    (userId connId : Nat) (ev : CalendarEvent) (now : Int) :
    List EventRow × Nat :=
  if ev.status.getD "confirmed" = "cancelled" then
    (deleteWhere (fun r => r.userId == userId && r.externalId == ev.id)
      events, nextRowId)
  else
    let up := calendarUpsertEvent events nextRowId userId connId ev now
    (up.1, up.2.1)

/-- An `events().list` response. -/
structure EventsResponse where
  items : List CalendarEvent
  nextSyncToken : Option String

/-- The result dict of `process_calendar_sync`. -/
structure CalSyncResult where
  changesProcessed : Nat
  nextSyncToken : Option String
deriving DecidableEq

/-- The event loop of `process_calendar_sync`. -/
def calEventLoop (userId connId : Nat) (now : Int) :
    List CalendarEvent → List EventRow → Nat → List EventRow × Nat
  | [], events, nextRowId => (events, nextRowId)
  | ev :: rest, events, nextRowId =>
    let (e1, n1) := store_calendar_event events nextRowId userId connId ev now
    calEventLoop userId connId now rest e1 n1

/-- `notification_processor.process_calendar_sync`: look up the
connection (raising when missing), list events with the stored sync
token (or, on first sync, a 7-days-back/30-days-forward window), route
each through `store_calendar_event`, and return the count plus the
provider's `nextSyncToken`. -/
def process_calendar_sync (events : List EventRow) (conns : List ConnRow)
    (nextRowId : Nat) (userId connectionId : Nat)
    (syncToken : Option String) (resp : EventsResponse) (now : Int) :
    Except String CalSyncResult × List EventRow × Nat :=
  let _ := syncToken
  match conns.find? fun c => c.id == connectionId with
  | none => (.error "Connection not found", events, nextRowId)
  | some _ =>
    let (e1, n1) := calEventLoop userId connectionId now resp.items events nextRowId
    (.ok { changesProcessed := resp.items.length,
           nextSyncToken := resp.nextSyncToken }, e1, n1)

/-- The store state touched by `process_calendar_notification`. -/
structure CalNotifState where
  events : List EventRow
  conns : List ConnRow
  subs : List SubRow
  nextRowId : Nat

/-- The result of `process_calendar_notification`. -/
structure CalNotifOutcome where
  success : Bool
  error : Option String
  changesProcessed : Nat
deriving DecidableEq

/-- `notification_processor.process_calendar_notification`: ignore
`sync` handshakes; look up the active Calendar subscription by channel
id; run the incremental sync; persist the returned `next_sync_token` —
when non-null — with counter and timestamps. -/
def process_calendar_notification (st : CalNotifState) (channelId : String)
    (resourceState : String) (resp : EventsResponse) (now : Int) :
    CalNotifOutcome × CalNotifState :=
  if resourceState = "sync" then
    ({ success := true, error := none, changesProcessed := 0 }, st)
  else
    let matching := st.subs.filter fun r =>
      decide (r.channelId = channelId ∧ r.provider = Provider.calendar ∧
              r.isActive = true) &&
      (st.conns.find? fun c => c.id == r.connectionId).isSome
    match matching with
    | [] =>
      ({ success := false, error := some "Subscription not found",
         changesProcessed := 0 }, st)
    | sub :: _ =>
      let userId :=
        match st.conns.find? fun c => c.id == sub.connectionId with
        | some c => c.userId
        | none => 0
      match process_calendar_sync st.events st.conns st.nextRowId userId
          sub.connectionId sub.syncToken resp now with
      | (.error e, e1, n1) =>
        ({ success := false, error := some e, changesProcessed := 0 },
         { st with events := e1, nextRowId := n1 })
      | (.ok res, e1, n1) =>
        let subs' :=
          match res.nextSyncToken with
          | none => st.subs
          | some tok =>
            updateWhere (fun r => r.id == sub.id)
              (fun r => { r with syncToken := some tok,
                                 lastNotificationAt := some now,
                                 notificationCount := sub.notificationCount + 1,
                                 updatedAt := some now }) st.subs
        ({ success := true, error := none,
           changesProcessed := res.changesProcessed },
         { events := e1, conns := st.conns, subs := subs', nextRowId := n1 })

/-- The per-event upsert loop of `sync_google_calendar.sync_google_calendar`
(the windowed full sync): every listed event is upserted — there is no
cancelled-status branch in this path (the provider's windowed list omits
cancelled events).  Returns table, next row id, (new, updated). -/
def syncCalendarLoop (userId connId : Nat) (now : Int) :
    List CalendarEvent → List EventRow → Nat →
    List EventRow × Nat × Nat × Nat
  | [], events, nextRowId => (events, nextRowId, 0, 0)
  | ev :: rest, events, nextRowId =>
    let (e1, n1, existed) := calendarUpsertEvent events nextRowId userId connId ev now
    let (e2, n2, a, u) := syncCalendarLoop userId connId now rest e1 n1
    (e2, n2, a + (if existed then 0 else 1), u + (if existed then 1 else 0))

/-- The result dict of `sync_google_calendar`. -/
structure CalFullOutcome where
  status : String
  newEvents : Nat
  updatedEvents : Nat
deriving DecidableEq

/-- `sync_google_calendar.sync_google_calendar`: upsert every event in
the window and stamp `ext_connections.last_synced`.  Presupposes an
active connection. -/
def sync_google_calendar (events : List EventRow) (conns : List ConnRow)
    (nextRowId : Nat) (userId connId : Nat) (items : List CalendarEvent)
    (now : Int) : CalFullOutcome × List EventRow × List ConnRow × Nat :=
  let (e, n, a, u) := syncCalendarLoop userId connId now items events nextRowId
  let conns' := updateWhere (fun c => c.id == connId)
    (fun c => { c with lastSynced := some now }) conns
  ({ status := "completed", newEvents := a, updatedEvents := u }, e, conns', n)

/-! ## Credential refresh (`email/google_api_helpers.py`, `cron.py`) -/

/-- Python falsiness of an optional string (`None` and `''`). -/
def pyFalsy (o : Option String) : Bool := o.getD "" = ""

/-- Python `a or b` over optional strings (`''` falls through too). -/
def pyOrStr (a b : Option String) : Option String :=
  match a with
  | some s => if s = "" then b else some s
  | none => b

/-- `settings.google_client_id` / `settings.google_client_secret`. -/
structure GoogleSettings where
  googleClientId : Option String
  googleClientSecret : Option String

/-- `google_api_helpers._refresh_google_token_if_needed` (leading
underscore dropped): no recorded expiry ⇒ the stored credential is
assumed valid; otherwise the expiry is checked against now + 5 minutes;
an expired credential is refreshed through the provider token endpoint
(`exchange` is the exchanged credential, `none` = the refresh raising)
and the new credential is persisted onto the `ext_connections` row;
every failure path returns `none`, which makes the caller fail instead
of proceeding. -/
def refresh_google_token_if_needed (conns : List ConnRow) (cd : ConnRow)
    (settings : GoogleSettings) (now : Int) (exchange : Option String) :
    Option String × List ConnRow :=
  match cd.tokenExpiresAt with
  | none => (cd.accessToken, conns)
  | some expiresAt =>
    if expiresAt > now + 5 * 60 then (cd.accessToken, conns)
    else if pyFalsy cd.refreshToken then (none, conns)
    else
      let clientId := pyOrStr cd.metaClientId settings.googleClientId
      let clientSecret := pyOrStr cd.metaClientSecret settings.googleClientSecret
      if pyFalsy clientId || pyFalsy clientSecret then (none, conns)
      else
        match exchange with
        | none => (none, conns)
        | some newTok =>
          let conns' := updateWhere
            (fun c => c.userId == cd.userId && decide (c.provider = "google"))
            (fun c => { c with accessToken := some newTok,
                               tokenExpiresAt := some (now + 3600) }) conns
          (some newTok, conns')

/-- `google_api_helpers.get_gmail_service`: look up the user's active
Google connection, run the refresh check, and build the Gmail client
from the resulting credential (the client is modelled by the credential
it will send).  Returns `(none, _)` — the caller's auth failure — when
there is no connection or no valid credential. -/
def get_gmail_service (conns : List ConnRow) (userId : Nat)
    (settings : GoogleSettings) (now : Int) (exchange : Option String) :
    Option (String × Nat) × List ConnRow :=
  match conns.find? fun c =>
      c.userId == userId && decide (c.provider = "google") && c.isActive with
  | none => (none, conns)
  | some cd =>
    let rr := refresh_google_token_if_needed conns cd settings now exchange
    if pyFalsy rr.1 then (none, rr.2)
    else
      match rr.1 with
      | none => (none, rr.2)
      | some t => (some (t, cd.id), rr.2)

/-- `cron.get_google_services_for_user`: the service-role helper used by
every cron job.  It builds the Gmail and Calendar clients directly from
the stored `access_token` — with no expiry check and no refresh. -/
def get_google_services_for_user (conns : List ConnRow) (userId : Nat) :
    Option (String × String × Nat) :=
  match conns.find? fun c =>
      c.userId == userId && decide (c.provider = "google") && c.isActive with
  | none => none
  | some cd =>
    if pyFalsy cd.accessToken then none
    else
      match cd.accessToken with
      | none => none
      | some tok => some (tok, tok, cd.id)

/-! ## Cron authorization (`cron.py`) -/

/-- `cron.verify_cron_auth`: a missing (or empty) Authorization header is
rejected before the development-mode bypass is consulted; in production
the header must equal `Bearer <CRON_SECRET>`. -/
def verify_cron_auth (authorization : Option String)
    (apiEnv : Option String) (cronSecret : Option String) : Bool :=
  if pyFalsy authorization then false
  else if apiEnv.getD "development" = "development" then true
  else authorization == some ("Bearer " ++ cronSecret.getD "")

/-- The summary dict returned by `cron_incremental_sync`. -/
structure CronSyncReport where
  status : String
  totalUsers : Nat
  success : Nat
  skipped : Nat
  errors : Nat
deriving DecidableEq

/-- The per-connection loop of `cron_incremental_sync`: skip users
synced less than 10 minutes ago, skip users without usable services,
otherwise run the (logged stub) syncs and stamp `last_synced`.  Returns
the table and the (success, skipped, errors) counters. -/
def cronSyncLoop (now : Int) :
    List ConnRow → List ConnRow → List ConnRow × Nat × Nat × Nat
  | [], conns => (conns, 0, 0, 0)
  | c :: rest, conns =>
    if (match c.lastSynced with
        | some t => decide (now - t < 600)
        | none => false) then
      let (cs, s, k, e) := cronSyncLoop now rest conns
      (cs, s, k + 1, e)
    else
      match get_google_services_for_user conns c.userId with
      | none =>
        let (cs, s, k, e) := cronSyncLoop now rest conns
        (cs, s, k + 1, e)
      | some (_, _, connectionId) =>
        let conns' := updateWhere (fun x => x.id == connectionId)
          (fun x => { x with lastSynced := some now }) conns
        let (cs, s, k, e) := cronSyncLoop now rest conns'
        (cs, s + 1, k, e)

/-- `GET /api/cron/incremental-sync`: the cron gate raises HTTP 401
(`.error 401`) whenever `verify_cron_auth` rejects, before any work;
otherwise the sweep runs over all active Google connections. -/
def cron_incremental_sync (authorization : Option String)
    (apiEnv cronSecret : Option String) (conns : List ConnRow)
    (now : Int) : Except Nat (CronSyncReport × List ConnRow) :=
  if !verify_cron_auth authorization apiEnv cronSecret then .error 401
  else
    let active := conns.filter fun c =>
      decide (c.provider = "google") && c.isActive
    if active.isEmpty then
      .ok ({ status := "completed", totalUsers := 0, success := 0,
             skipped := 0, errors := 0 }, conns)
    else
      let (cs, s, k, e) := cronSyncLoop now active conns
      .ok ({ status := "completed", totalUsers := active.length,
             success := s, skipped := k, errors := e }, cs)

/-! ## Concrete fixtures (inputs for witnesses and counterexamples) -/

/-- An active Gmail subscription row. -/
def subG : SubRow :=
  { id := 1, userId := 7, connectionId := 3, provider := .gmail,
    channelId := "g-chan", resourceId := none, historyId := some 100,
    syncToken := none, expiration := 1000, isActive := true,
    notificationCount := 0, lastNotificationAt := none, updatedAt := none }

/-- An active Calendar subscription row. -/
def subC : SubRow :=
  { subG with id := 2, provider := Provider.calendar,
              channelId := "c-chan", resourceId := some "res-1",
              historyId := none, syncToken := some "tok-0" }

/-- A watch store holding one active subscription of each kind. -/
def watchDB1 : WatchDB := { subs := [subG, subC], nextId := 3 }

/-- A timed (non-all-day) event start. -/
def evStart : EventTime := { date := none, dateTime := some "2026-01-01T10:00:00Z" }

/-- A timed event end. -/
def evEnd : EventTime := { date := none, dateTime := some "2026-01-01T11:00:00Z" }

/-- A provider change with status `cancelled`. -/
def evCancelled : CalendarEvent :=
  { id := "ev-1", summary := some "Meeting", description := none,
    location := none, status := some "cancelled", start := evStart,
    finish := evEnd }

/-- A provider change with status `confirmed`. -/
def evConfirmed : CalendarEvent :=
  { evCancelled with id := "ev-2", status := some "confirmed" }

/-- A stored calendar row matching `evCancelled`'s external id. -/
def evRow1 : EventRow :=
  { rowId := 1, userId := 7, extConnectionId := 3, externalId := "ev-1",
    title := "Meeting", description := none, location := none,
    startTime := some "2026-01-01T10:00:00Z",
    endTime := some "2026-01-01T11:00:00Z", isAllDay := false,
    status := "confirmed", syncedAt := 0, rawItem := evCancelled }

/-- An active Google connection row. -/
def connG : ConnRow :=
  { id := 3, userId := 7, provider := "google", accessToken := some "tok-a",
    refreshToken := some "tok-r", tokenExpiresAt := some 10000,
    isActive := true, metaClientId := none, metaClientSecret := none,
    lastSynced := none }

/-- A history-sync store with one active Gmail subscription at cursor
100. -/
def histState1 : HistorySyncState :=
  { emails := [], conns := [connG], subs := [subG], nextRowId := 1 }

/-- A notification store with the same contents. -/
def notifState1 : NotifState :=
  { emails := [], conns := [connG], subs := [subG], nextRowId := 1 }

/-- A calendar-notification store with one active Calendar
subscription. -/
def calNotifState1 : CalNotifState :=
  { events := [], conns := [connG], subs := [subC], nextRowId := 1 }

/-- An active Google connection whose access credential is long expired
and that has no refresh credential. -/
def connStale : ConnRow :=
  { id := 4, userId := 8, provider := "google",
    accessToken := some "stale-token", refreshToken := none,
    tokenExpiresAt := some 0, isActive := true, metaClientId := none,
    metaClientSecret := none, lastSynced := none }

/-- An active Google connection needing refresh, with a refresh
credential and client metadata present. -/
def connExpired : ConnRow :=
  { id := 5, userId := 9, provider := "google",
    accessToken := some "old-token", refreshToken := some "refresh-1",
    tokenExpiresAt := some 1000, isActive := true,
    metaClientId := some "cid", metaClientSecret := some "sec",
    lastSynced := none }

/-- Empty OAuth client settings. -/
def settings0 : GoogleSettings :=
  { googleClientId := none, googleClientSecret := none }

/-- The invariant relating an email row's stored flags to its stored
label list: `is_read` iff `'UNREAD'` is absent, `is_starred` iff
`'STARRED'` is present. -/
def flagsConsistentB (r : EmailRow) : Bool :=
  (r.isRead == !(r.labels.contains "UNREAD")) &&
  (r.isStarred == r.labels.contains "STARRED")

/-- A stored email row with consistent flags (unread, not starred). -/
def emailRow1 : EmailRow :=
  { blankEmailRow 1 with userId := 7, externalId := "m-1",
                         subject := "Hello", labels := ["INBOX", "UNREAD"],
                         isRead := false, isStarred := false }

/-- A full Gmail message carrying `UNREAD` and `STARRED` labels. -/
def msg1 : GmailMessage :=
  { id := "m-2", threadId := "t-1", snippet := "hi",
    labelIds := ["INBOX", "UNREAD", "STARRED"],
    internalDate := some 1700000000000, sizeEstimate := 10,
    headers := [{ name := "From", value := "a@b.example" },
                { name := "Subject", value := "Hello" }],
    payload := .mk "text/plain" "" (some "body text") none 9 [] }

/-- A history record with no changes in it. -/
def histRec0 : HistoryRecord :=
  { messagesAdded := [], messagesDeleted := [], labelsAdded := [],
    labelsRemoved := [] }

/-! ## Spec-side claim renderings (for refutation) -/

/-- C4 as the spec states it: an `exists` webhook notification whose
channel id matches an active Subscription is handed off to the Delta
Reconciler for background processing (spec-side rendering, to be
compared with the embedded handler). -/
def webhookHandsOffToReconcilerClaim : Prop :=
  ∀ (subs : List SubRow) (chan : String) (now : Int) (sub : SubRow)
    (rest : List SubRow),
    subs.filter (fun r => decide (some r.channelId = some chan ∧
        r.provider = Provider.gmail ∧ r.isActive = true)) = sub :: rest →
    (gmail_webhook subs (some chan) (some "exists") now false).dispatched ≠ []

/-- C2 as the spec states it, rendered for the Gmail history reconciler
`process_gmail_history`: every successful run persists the provider's
newly returned cursor onto the active Subscription whenever it is
fresher than the start cursor — including zero-change runs. -/
def historyRunPersistsFresherCursorClaim : Prop :=
  ∀ (st : HistorySyncState) (userId connId startH : Nat)
    (resp : GmailHistoryResponse) (fetch : String → Option GmailMessage)
    (now : Int) (h : Nat),
    resp.historyId = some h → startH < h →
    (process_gmail_history st userId connId startH resp fetch now).1.status =
      "completed" →
    ((process_gmail_history st userId connId startH resp fetch
        now).2.subs.all
      fun s => !(isActiveFor userId .gmail s) || (s.historyId == some h)) =
      true

/-- C6 as the spec states it, rendered for the cron service-role helper
(`cron.get_google_services_for_user`): before a provider call, an
expired-past-margin credential with no refresh credential must make the
operation fail (yield no services) rather than proceed with the stale
credential. -/
def cronHelperFailsOnStaleCredentialClaim : Prop :=
  ∀ (conns : List ConnRow) (userId : Nat) (cd : ConnRow) (now exp : Int),
    conns.find? (fun c => c.userId == userId &&
      decide (c.provider = "google") && c.isActive) = some cd →
    cd.tokenExpiresAt = some exp → exp ≤ now + 5 * 60 →
    cd.refreshToken = none →
    get_google_services_for_user conns userId = none

/-! ## Shared lemmas -/

theorem mem_pySet {a : String} {xs : List String} : a ∈ pySet xs ↔ a ∈ xs :=
  List.mem_dedup

theorem pySet_contains (a : String) (xs : List String) :
    (pySet xs).contains a = xs.contains a := by
  simp [pySet, List.contains, List.elem_eq_mem, List.mem_dedup]

theorem mem_updateWhere {l : List α} {p : α → Bool} {f : α → α} {r : α}
    (h : r ∈ updateWhere p f l) : ∃ x ∈ l, r = if p x then f x else x := by
  simp only [updateWhere, List.mem_map] at h
  obtain ⟨x, hx, hr⟩ := h
  exact ⟨x, hx, hr.symm⟩

theorem updateWhere_mem_of_mem (p : α → Bool) (f : α → α) {l : List α}
    {x : α} (h : x ∈ l) : (if p x then f x else x) ∈ updateWhere p f l := by
  simpa only [updateWhere] using List.mem_map_of_mem _ h

theorem mem_deleteWhere {l : List α} {p : α → Bool} {r : α} :
    r ∈ deleteWhere p l ↔ r ∈ l ∧ p r = false := by
  simp [deleteWhere, List.mem_filter]

theorem any_updateWhere_of_mem {l : List α} {p : α → Bool} {f : α → α}
    {q : α → Bool} {x : α} (hx : x ∈ l) (hp : p x = true)
    (hq : q (f x) = true) : (updateWhere p f l).any q = true := by
  rw [List.any_eq_true]
  exact ⟨f x, by simpa [hp] using updateWhere_mem_of_mem p f hx, hq⟩

theorem all_updateWhere {l : List α} {p : α → Bool} {f : α → α}
    {q : α → Bool} (hall : l.all q = true)
    (hf : ∀ x ∈ l, q (f x) = true) : (updateWhere p f l).all q = true := by
  rw [List.all_eq_true] at hall ⊢
  intro r hr
  obtain ⟨x, hx, hrx⟩ := mem_updateWhere hr
  by_cases hp : p x = true
  · rw [if_pos hp] at hrx
    rw [hrx]
    exact hf x hx
  · rw [if_neg hp] at hrx
    rw [hrx]
    exact hall x hx

/-! ## C5 -/

/-- C5: every inbound webhook request — a `sync` handshake, an
unrecognized or malformed channel id, or an internal failure inside the
handler — is acknowledged with HTTP 200 by both webhook endpoints; no
caller-visible error status reaches the provider. -/
theorem C5_webhooks_always_acknowledge_200 :
    ∀ (subs : List SubRow) (chan state : Option String) (now : Int)
      (storeFails : Bool),
      (gmail_webhook subs chan state now storeFails).httpStatus = 200 ∧
      (calendar_webhook subs chan state now storeFails).httpStatus = 200 := by
  intro subs chan state now storeFails
  refine ⟨?_, ?_⟩
  · unfold gmail_webhook
    split <;> rfl
  · unfold calendar_webhook
    split <;> rfl

/-! ## C10 -/

/-- C10: `verify_cron_auth` rejects a missing Authorization header
before consulting the development-mode bypass, so the scheduled
incremental-sync endpoint answers HTTP 401 to a header-less request in
every environment and with every store state. -/
theorem C10_missing_auth_is_401_in_every_env :
    ∀ (apiEnv cronSecret : Option String) (conns : List ConnRow) (now : Int),
      verify_cron_auth none apiEnv cronSecret = false ∧
      cron_incremental_sync none apiEnv cronSecret conns now =
        .error 401 := by
  intro apiEnv cronSecret conns now
  exact ⟨rfl, rfl⟩

/-! ## C8 -/

/-- C8: stopping a watch with no active Subscription is idempotent — it
returns success with a "nothing to stop" status and leaves the store
untouched; with an active Subscription, a provider-side teardown failure
(`providerStopFails = true`, covering "already expired / not found") is
tolerated as success while the local row is still marked inactive — for
both resource kinds. -/
theorem C8_stop_idempotent_and_provider_failure_tolerant :
    (∀ (db : WatchDB) (u : Nat) (pf : Bool),
      activeSubs db u .gmail = [] →
      stop_gmail_watch db u true pf =
        (.ok { success := true, message := "No active watch to stop" }, db)) ∧
    (∀ (db : WatchDB) (u : Nat) (pf : Bool),
      activeSubs db u .calendar = [] →
      stop_calendar_watch db u true pf =
        (.ok { success := true, message := "No active watch to stop" }, db)) ∧
    (∀ (db : WatchDB) (u : Nat) (sub : SubRow) (rest : List SubRow),
      activeSubs db u .gmail = sub :: rest →
      stop_gmail_watch db u true true =
        (.ok { success := true, message := "Gmail watch stopped" },
         deactivateSub db sub.id)) ∧
    (∀ (db : WatchDB) (u : Nat) (sub : SubRow) (rest : List SubRow),
      activeSubs db u .calendar = sub :: rest →
      stop_calendar_watch db u true true =
        (.ok { success := true, message := "Calendar watch stopped" },
         deactivateSub db sub.id)) := by
  refine ⟨?_, ?_, ?_, ?_⟩
  · intro db u pf h
    simp only [stop_gmail_watch, h]
    rfl
  · intro db u pf h
    simp only [stop_calendar_watch, h]
    rfl
  · intro db u sub rest h
    simp only [stop_gmail_watch, h]
    rfl
  · intro db u sub rest h
    simp only [stop_calendar_watch, h]
    rfl

/-- Witness for C8 at concrete stores: an empty store (nothing to stop)
and a store with one active watch of each kind, stopped while the
provider teardown fails. -/
theorem C8_witness :
    stop_gmail_watch emptyWatchDB 7 true false =
      (.ok { success := true, message := "No active watch to stop" },
       emptyWatchDB) ∧
    stop_calendar_watch emptyWatchDB 7 true false =
      (.ok { success := true, message := "No active watch to stop" },
       emptyWatchDB) ∧
    stop_gmail_watch watchDB1 7 true true =
      (.ok { success := true, message := "Gmail watch stopped" },
       deactivateSub watchDB1 1) ∧
    stop_calendar_watch watchDB1 7 true true =
      (.ok { success := true, message := "Calendar watch stopped" },
       deactivateSub watchDB1 2) :=
  ⟨C8_stop_idempotent_and_provider_failure_tolerant.1 emptyWatchDB 7 false rfl,
   C8_stop_idempotent_and_provider_failure_tolerant.2.1 emptyWatchDB 7 false rfl,
   C8_stop_idempotent_and_provider_failure_tolerant.2.2.1 watchDB1 7 subG []
     (by decide),
   C8_stop_idempotent_and_provider_failure_tolerant.2.2.2 watchDB1 7 subC []
     (by decide)⟩

/-! ## C3 -/

theorem historyDeletedLoop_subset (userId : Nat) :
    ∀ (mids : List String) (emails : List EmailRow) (r : EmailRow),
      r ∈ (historyDeletedLoop userId mids emails).1 → r ∈ emails := by
  intro mids
  induction mids with
  | nil => intro emails r h; exact h
  | cons m rest ih =>
    intro emails r h
    have hmem := ih
      (deleteWhere (fun r => r.userId == userId && r.externalId == m) emails)
      r h
    exact (mem_deleteWhere.mp hmem).1

theorem npDeletedLoop_subset (userId : Nat) :
    ∀ (mids : List String) (emails : List EmailRow) (r : EmailRow),
      r ∈ (npDeletedLoop userId mids emails).1 → r ∈ emails := by
  intro mids
  induction mids with
  | nil => intro emails r h; exact h
  | cons m rest ih =>
    intro emails r h
    have hmem := ih
      (deleteWhere (fun r => r.userId == userId && r.externalId == m) emails)
      r h
    exact (mem_deleteWhere.mp hmem).1

theorem historyDeletedLoop_tombstone (userId : Nat) :
    ∀ (mids : List String) (emails : List EmailRow) (mid : String),
      mid ∈ mids →
      ((historyDeletedLoop userId mids emails).1.all
        fun r => !(r.userId == userId && r.externalId == mid)) = true := by
  intro mids
  induction mids with
  | nil => intro emails mid h; cases h
  | cons m rest ih =>
    intro emails mid h
    rcases List.mem_cons.mp h with hm | hm
    · subst hm
      rw [List.all_eq_true]
      intro r hr
      have hr2 : r ∈ deleteWhere
          (fun r => r.userId == userId && r.externalId == mid) emails :=
        historyDeletedLoop_subset userId rest _ r hr
      have h2 := (mem_deleteWhere.mp hr2).2
      simp only [] at h2
      simp [h2]
    · exact ih
        (deleteWhere (fun r => r.userId == userId && r.externalId == m)
          emails) mid hm

theorem npDeletedLoop_tombstone (userId : Nat) :
    ∀ (mids : List String) (emails : List EmailRow) (mid : String),
      mid ∈ mids →
      ((npDeletedLoop userId mids emails).1.all
        fun r => !(r.userId == userId && r.externalId == mid)) = true := by
  intro mids
  induction mids with
  | nil => intro emails mid h; cases h
  | cons m rest ih =>
    intro emails mid h
    rcases List.mem_cons.mp h with hm | hm
    · subst hm
      rw [List.all_eq_true]
      intro r hr
      have hr2 : r ∈ deleteWhere
          (fun r => r.userId == userId && r.externalId == mid) emails :=
        npDeletedLoop_subset userId rest _ r hr
      have h2 := (mem_deleteWhere.mp hr2).2
      simp only [] at h2
      simp [h2]
    · exact ih
        (deleteWhere (fun r => r.userId == userId && r.externalId == m)
          emails) mid hm

/-- C3: applying a provider calendar change with status `cancelled`
through the reconciler's `store_calendar_event` leaves no
`calendar_events` row with that `(user, external id)` key — whether or
not one existed; a non-cancelled change is upserted instead, with the
all-day vs timed representations normalized into one start/end pair.
Likewise a mail `deleted` change: both embedded `messagesDeleted` loops
(`process_gmail_history`'s `historyDeletedLoop` and
`process_gmail_history_changes`'s `npDeletedLoop`) leave no `emails` row
with the deleted external id for that user, whether or not one
existed. -/
theorem C3_cancelled_tombstone_and_upsert :
    (∀ (events : List EventRow) (nextRowId userId connId : Nat)
       (ev : CalendarEvent) (now : Int),
      ev.status = some "cancelled" →
      ((store_calendar_event events nextRowId userId connId ev now).1.all
        fun r => !(r.userId == userId && r.externalId == ev.id)) = true) ∧
    (∀ (events : List EventRow) (nextRowId userId connId : Nat)
       (ev : CalendarEvent) (now : Int),
      ev.status.getD "confirmed" ≠ "cancelled" →
      ((store_calendar_event events nextRowId userId connId ev now).1.any
        fun r => decide (r.userId = userId ∧ r.externalId = ev.id ∧
          r.title = ev.summary.getD "Untitled Event" ∧
          r.description = ev.description ∧ r.location = ev.location ∧
          r.isAllDay = ev.start.date.isSome ∧
          r.startTime = (if ev.start.date.isSome then
              ev.start.date.map (· ++ "T00:00:00Z") else ev.start.dateTime) ∧
          r.endTime = (if ev.start.date.isSome then
              ev.finish.date.map (· ++ "T23:59:59Z") else ev.finish.dateTime) ∧
          r.status = ev.status.getD "confirmed" ∧
          r.syncedAt = now ∧ r.rawItem = ev)) = true) ∧
    (∀ (emails : List EmailRow) (userId : Nat) (mids : List String)
       (mid : String),
      mid ∈ mids →
      ((historyDeletedLoop userId mids emails).1.all
        fun r => !(r.userId == userId && r.externalId == mid)) = true) ∧
    (∀ (emails : List EmailRow) (userId : Nat) (mids : List String)
       (mid : String),
      mid ∈ mids →
      ((npDeletedLoop userId mids emails).1.all
        fun r => !(r.userId == userId && r.externalId == mid)) = true) := by
  refine ⟨?_, ?_, ?_, ?_⟩
  · intro events nextRowId userId connId ev now h
    have hc : ev.status.getD "confirmed" = "cancelled" := by rw [h]; rfl
    simp only [store_calendar_event, if_pos hc]
    rw [List.all_eq_true]
    intro r hr
    have h2 := (mem_deleteWhere.mp hr).2
    simp only [] at h2
    simp [h2]
  · intro events nextRowId userId connId ev now h
    simp only [store_calendar_event, if_neg h, calendarUpsertEvent]
    cases hE : events.filter
        (fun r => r.userId == userId && r.externalId == ev.id) with
    | nil =>
      simp
    | cons e rest =>
      simp only []
      have heM : e ∈ events :=
        (List.mem_filter.mp (hE ▸ List.mem_cons_self e rest)).1
      exact any_updateWhere_of_mem heM (by simp) (by simp)
  · intro emails userId mids mid h
    exact historyDeletedLoop_tombstone userId mids emails mid h
  · intro emails userId mids mid h
    exact npDeletedLoop_tombstone userId mids emails mid h

/-- Witness for C3: a cancelled change applied over a table that holds a
matching row clears it; a confirmed change over an empty table upserts
it; a mail `deleted` change for an existing external id clears that
email row through both `messagesDeleted` loops. -/
theorem C3_witness :
    ((store_calendar_event [evRow1] 2 7 3 evCancelled 5).1.all
      fun r => !(r.userId == 7 && r.externalId == evCancelled.id)) = true ∧
    ((store_calendar_event [] 1 7 3 evConfirmed 5).1.any
      fun r => decide (r.userId = 7 ∧ r.externalId = evConfirmed.id ∧
        r.title = evConfirmed.summary.getD "Untitled Event" ∧
        r.description = evConfirmed.description ∧
        r.location = evConfirmed.location ∧
        r.isAllDay = evConfirmed.start.date.isSome ∧
        r.startTime = (if evConfirmed.start.date.isSome then
            evConfirmed.start.date.map (· ++ "T00:00:00Z")
          else evConfirmed.start.dateTime) ∧
        r.endTime = (if evConfirmed.start.date.isSome then
            evConfirmed.finish.date.map (· ++ "T23:59:59Z")
          else evConfirmed.finish.dateTime) ∧
        r.status = evConfirmed.status.getD "confirmed" ∧
        r.syncedAt = 5 ∧ r.rawItem = evConfirmed)) = true ∧
    ((historyDeletedLoop 7 ["m-1"] [emailRow1]).1.all
      fun r => !(r.userId == 7 && r.externalId == "m-1")) = true ∧
    ((npDeletedLoop 7 ["m-1"] [emailRow1]).1.all
      fun r => !(r.userId == 7 && r.externalId == "m-1")) = true :=
  ⟨C3_cancelled_tombstone_and_upsert.1 [evRow1] 2 7 3 evCancelled 5 rfl,
   C3_cancelled_tombstone_and_upsert.2.1 [] 1 7 3 evConfirmed 5 (by decide),
   C3_cancelled_tombstone_and_upsert.2.2.1 [emailRow1] 7 ["m-1"] "m-1"
     (List.mem_singleton.mpr rfl),
   C3_cancelled_tombstone_and_upsert.2.2.2 [emailRow1] 7 ["m-1"] "m-1"
     (List.mem_singleton.mpr rfl)⟩

/-! ## C4 -/

/-- C4 counterexample: with one active Gmail subscription matching the
notified channel, the webhook handler dispatches nothing — the handoff
to the Delta Reconciler claimed by the spec does not happen (the source
only logs that it would queue the job). -/
theorem C4_counterexample : ¬ webhookHandsOffToReconcilerClaim :=
  fun hclaim => (hclaim [subG] "g-chan" 5 subG [] (by decide)) (by decide)

/-- C4 (amended): a matched `exists` notification makes the receiver
increment that Subscription's notification counter and stamp its
last-notification time, and it acknowledges with HTTP 200 — but no work
is handed off to the Delta Reconciler (the processing hook is a logged
no-op); likewise for the calendar receiver. -/
theorem C4_amended_receiver_counts_but_does_not_dispatch :
    (∀ (subs : List SubRow) (chan : String) (now : Int) (sub : SubRow)
       (rest : List SubRow),
      subs.filter (fun r => decide (some r.channelId = some chan ∧
          r.provider = Provider.gmail ∧ r.isActive = true)) = sub :: rest →
      gmail_webhook subs (some chan) (some "exists") now false =
        { httpStatus := 200, body := ⟨"ok", "Notification received"⟩,
          subs := updateWhere (fun r => r.id == sub.id)
            (fun r => { r with notificationCount := sub.notificationCount + 1,
                               lastNotificationAt := some now }) subs,
          dispatched := [] }) ∧
    (∀ (subs : List SubRow) (chan : String) (now : Int) (sub : SubRow)
       (rest : List SubRow),
      subs.filter (fun r => decide (some r.channelId = some chan ∧
          r.provider = Provider.calendar ∧ r.isActive = true)) = sub :: rest →
      calendar_webhook subs (some chan) (some "exists") now false =
        { httpStatus := 200, body := ⟨"ok", "Notification received"⟩,
          subs := updateWhere (fun r => r.id == sub.id)
            (fun r => { r with notificationCount := sub.notificationCount + 1,
                               lastNotificationAt := some now }) subs,
          dispatched := [] }) := by
  constructor
  · intro subs chan now sub rest h
    simp only [gmail_webhook, gmailWebhookBody, h]
    simp
  · intro subs chan now sub rest h
    simp only [calendar_webhook, calendarWebhookBody, h]
    simp

/-- Witness for C4's amended theorem at one-subscription stores. -/
theorem C4_witness :
    gmail_webhook [subG] (some "g-chan") (some "exists") 5 false =
      { httpStatus := 200, body := ⟨"ok", "Notification received"⟩,
        subs := updateWhere (fun r => r.id == subG.id)
          (fun r => { r with notificationCount := subG.notificationCount + 1,
                             lastNotificationAt := some 5 }) [subG],
        dispatched := [] } ∧
    calendar_webhook [subC] (some "c-chan") (some "exists") 5 false =
      { httpStatus := 200, body := ⟨"ok", "Notification received"⟩,
        subs := updateWhere (fun r => r.id == subC.id)
          (fun r => { r with notificationCount := subC.notificationCount + 1,
                             lastNotificationAt := some 5 }) [subC],
        dispatched := [] } :=
  ⟨C4_amended_receiver_counts_but_does_not_dispatch.1 [subG] "g-chan" 5 subG []
     (by decide),
   C4_amended_receiver_counts_but_does_not_dispatch.2 [subC] "c-chan" 5 subC []
     (by decide)⟩

/-! ## C2 -/

/-- C2 counterexample: a zero-change `process_gmail_history` run —
history empty, provider cursor 150, start cursor 100 — completes
successfully but leaves the stored cursor at 100: the fresher cursor is
returned to the caller without being persisted onto the Subscription. -/
theorem C2_counterexample : ¬ historyRunPersistsFresherCursorClaim :=
  fun hclaim =>
    absurd
      (hclaim histState1 7 3 100 ⟨[], some 150⟩ (fun _ => none) 0 150 rfl
        (by decide) rfl)
      (by decide)

/-- C2 (amended): the notification-driven reconcilers persist the
fresher cursor at completion even on zero-change runs —
`process_gmail_notification` writes `data['historyId'] or
latest_history_id`, `process_calendar_notification` writes the returned
`nextSyncToken` — while `process_gmail_history` persists the returned
cursor exactly when at least one history record was returned. -/
theorem C2_amended_cursor_persistence :
    (∀ (st : NotifState) (chan : String) (data : NotificationData)
       (resp : GmailHistoryResponse) (fetch : String → Option GmailMessage)
       (now : Int) (sub : SubRow) (rest : List SubRow) (hid : Nat),
      st.subs.filter (fun r =>
          decide (r.channelId = chan ∧ r.provider = Provider.gmail ∧
            r.isActive = true) &&
          (st.conns.find? fun c => c.id == r.connectionId).isSome) =
        sub :: rest →
      resp.history = [] →
      (data.historyId <|> resp.historyId) = some hid →
      (process_gmail_notification st chan "exists" data resp fetch
          now).1.success = true ∧
      (process_gmail_notification st chan "exists" data resp fetch
          now).2.subs =
        updateWhere (fun r => r.id == sub.id)
          (fun r => { r with historyId := some hid,
                             lastNotificationAt := some now,
                             notificationCount := sub.notificationCount + 1,
                             updatedAt := some now }) st.subs) ∧
    (∀ (st : CalNotifState) (chan : String) (resp : EventsResponse)
       (now : Int) (sub : SubRow) (rest : List SubRow) (tok : String),
      st.subs.filter (fun r =>
          decide (r.channelId = chan ∧ r.provider = Provider.calendar ∧
            r.isActive = true) &&
          (st.conns.find? fun c => c.id == r.connectionId).isSome) =
        sub :: rest →
      resp.items = [] →
      resp.nextSyncToken = some tok →
      (process_calendar_notification st chan "exists" resp now).1.success =
        true ∧
      (process_calendar_notification st chan "exists" resp now).2.subs =
        updateWhere (fun r => r.id == sub.id)
          (fun r => { r with syncToken := some tok,
                             lastNotificationAt := some now,
                             notificationCount := sub.notificationCount + 1,
                             updatedAt := some now }) st.subs) ∧
    (∀ (st : HistorySyncState) (userId connId startH : Nat)
       (rec : HistoryRecord) (rrest : List HistoryRecord) (hid : Nat)
       (fetch : String → Option GmailMessage) (now : Int),
      ((process_gmail_history st userId connId startH
          ⟨rec :: rrest, some hid⟩ fetch now).2.subs.all
        fun s => !(isActiveFor userId .gmail s) ||
          (s.historyId == some hid)) = true) := by
  refine ⟨?_, ?_, ?_⟩
  · intro st chan data resp fetch now sub rest hid h hhist hnew
    have hsub : sub ∈ st.subs.filter (fun r =>
        decide (r.channelId = chan ∧ r.provider = Provider.gmail ∧
          r.isActive = true) &&
        (st.conns.find? fun c => c.id == r.connectionId).isSome) :=
      h ▸ List.mem_cons_self _ _
    have hpred := (List.mem_filter.mp hsub).2
    rw [Bool.and_eq_true] at hpred
    obtain ⟨c, hc⟩ := Option.isSome_iff_exists.mp hpred.2
    simp only [process_gmail_notification, process_gmail_history_changes,
      h, hc, hhist]
    simp only [List.isEmpty_nil, if_true, reduceCtorEq, reduceIte]
    simp only [hnew]
    exact ⟨rfl, rfl⟩
  · intro st chan resp now sub rest tok h hitems htok
    have hsub : sub ∈ st.subs.filter (fun r =>
        decide (r.channelId = chan ∧ r.provider = Provider.calendar ∧
          r.isActive = true) &&
        (st.conns.find? fun c => c.id == r.connectionId).isSome) :=
      h ▸ List.mem_cons_self _ _
    have hpred := (List.mem_filter.mp hsub).2
    rw [Bool.and_eq_true] at hpred
    obtain ⟨c, hc⟩ := Option.isSome_iff_exists.mp hpred.2
    simp only [process_calendar_notification, process_calendar_sync,
      h, hc, hitems]
    simp only [calEventLoop, htok, reduceCtorEq, reduceIte]
    exact ⟨rfl, rfl⟩
  · intro st userId connId startH rec rrest hid fetch now
    simp only [process_gmail_history, List.isEmpty_cons, Bool.false_eq_true,
      if_false]
    rw [List.all_eq_true]
    intro s hs
    obtain ⟨x, hx, hsx⟩ := mem_updateWhere hs
    by_cases hact : isActiveFor userId .gmail x = true
    · rw [if_pos hact] at hsx
      subst hsx
      simp [isActiveFor] at hact ⊢
    · rw [if_neg hact] at hsx
      subst hsx
      cases hb : isActiveFor userId Provider.gmail s with
      | false => simp [hb]
      | true => exact absurd hb hact

/-- Witness for C2's amended theorem: zero-change notification runs for
both kinds persist the fresh cursor; a one-record history run persists
it too. -/
theorem C2_witness :
    ((process_gmail_notification notifState1 "g-chan" "exists" ⟨none⟩
        ⟨[], some 150⟩ (fun _ => none) 9).1.success = true ∧
     (process_gmail_notification notifState1 "g-chan" "exists" ⟨none⟩
        ⟨[], some 150⟩ (fun _ => none) 9).2.subs =
       updateWhere (fun r => r.id == subG.id)
         (fun r => { r with historyId := some 150,
                            lastNotificationAt := some 9,
                            notificationCount := subG.notificationCount + 1,
                            updatedAt := some 9 }) notifState1.subs) ∧
    ((process_calendar_notification calNotifState1 "c-chan" "exists"
        ⟨[], some "tok-1"⟩ 9).1.success = true ∧
     (process_calendar_notification calNotifState1 "c-chan" "exists"
        ⟨[], some "tok-1"⟩ 9).2.subs =
       updateWhere (fun r => r.id == subC.id)
         (fun r => { r with syncToken := some "tok-1",
                            lastNotificationAt := some 9,
                            notificationCount := subC.notificationCount + 1,
                            updatedAt := some 9 }) calNotifState1.subs) ∧
    ((process_gmail_history histState1 7 3 100 ⟨[histRec0], some 150⟩
        (fun _ => none) 9).2.subs.all
      fun s => !(isActiveFor 7 .gmail s) || (s.historyId == some 150)) =
      true :=
  ⟨C2_amended_cursor_persistence.1 notifState1 "g-chan" ⟨none⟩
     ⟨[], some 150⟩ (fun _ => none) 9 subG [] 150 (by decide) rfl rfl,
   C2_amended_cursor_persistence.2.1 calNotifState1 "c-chan"
     ⟨[], some "tok-1"⟩ 9 subC [] "tok-1" (by decide) rfl rfl,
   C2_amended_cursor_persistence.2.2 histState1 7 3 100 histRec0 [] 150
     (fun _ => none) 9⟩

/-! ## C6 -/

/-- C6 counterexample: the cron helper returns usable services built
from an access credential that expired at time 0, queried at time 1000,
with no refresh credential available — it neither checks the 5-minute
margin nor fails, contradicting the claim for this provider-call path. -/
theorem C6_counterexample : ¬ cronHelperFailsOnStaleCredentialClaim :=
  fun hclaim =>
    absurd
      (hclaim [connStale] 8 connStale 1000 0 (by decide) rfl (by decide) rfl)
      (by decide)

/-- C6 (amended): on the user-JWT path
(`_refresh_google_token_if_needed`, used by `get_gmail_service`) the
expiry is checked with the 5-minute margin: a still-valid credential is
returned untouched; an expired one with no refresh credential, or whose
exchange fails, yields `none` — making the caller fail with the
auth-required error instead of proceeding; a successful exchange is
persisted onto the Connection.  The cron service-role helper, by
contrast, performs no such check (see the counterexample). -/
theorem C6_amended_refresh_checks_and_fails_closed :
    (∀ (conns : List ConnRow) (cd : ConnRow) (settings : GoogleSettings)
       (now : Int) (exchange : Option String) (exp : Int),
      cd.tokenExpiresAt = some exp → now + 5 * 60 < exp →
      refresh_google_token_if_needed conns cd settings now exchange =
        (cd.accessToken, conns)) ∧
    (∀ (conns : List ConnRow) (cd : ConnRow) (settings : GoogleSettings)
       (now : Int) (exchange : Option String) (exp : Int),
      cd.tokenExpiresAt = some exp → exp ≤ now + 5 * 60 →
      pyFalsy cd.refreshToken = true →
      refresh_google_token_if_needed conns cd settings now exchange =
        (none, conns)) ∧
    (∀ (conns : List ConnRow) (cd : ConnRow) (settings : GoogleSettings)
       (now exp : Int),
      cd.tokenExpiresAt = some exp → exp ≤ now + 5 * 60 →
      pyFalsy cd.refreshToken = false →
      pyFalsy (pyOrStr cd.metaClientId settings.googleClientId) = false →
      pyFalsy (pyOrStr cd.metaClientSecret settings.googleClientSecret) =
        false →
      refresh_google_token_if_needed conns cd settings now none =
        (none, conns)) ∧
    (∀ (conns : List ConnRow) (cd : ConnRow) (settings : GoogleSettings)
       (now : Int) (newTok : String) (exp : Int),
      cd.tokenExpiresAt = some exp → exp ≤ now + 5 * 60 →
      pyFalsy cd.refreshToken = false →
      pyFalsy (pyOrStr cd.metaClientId settings.googleClientId) = false →
      pyFalsy (pyOrStr cd.metaClientSecret settings.googleClientSecret) =
        false →
      refresh_google_token_if_needed conns cd settings now (some newTok) =
        (some newTok,
         updateWhere (fun c => c.userId == cd.userId &&
             decide (c.provider = "google"))
           (fun c => { c with accessToken := some newTok,
                              tokenExpiresAt := some (now + 3600) })
           conns)) ∧
    (∀ (conns : List ConnRow) (userId : Nat) (settings : GoogleSettings)
       (now : Int) (exchange : Option String) (cd : ConnRow),
      conns.find? (fun c => c.userId == userId &&
        decide (c.provider = "google") && c.isActive) = some cd →
      (refresh_google_token_if_needed conns cd settings now exchange).1 =
        none →
      (get_gmail_service conns userId settings now exchange).1 = none) := by
  refine ⟨?_, ?_, ?_, ?_, ?_⟩
  · intro conns cd settings now exchange exp hexp hvalid
    simp only [refresh_google_token_if_needed, hexp]
    rw [if_pos (by exact_mod_cast hvalid)]
  · intro conns cd settings now exchange exp hexp hexpired hrt
    simp only [refresh_google_token_if_needed, hexp]
    rw [if_neg (by omega), if_pos hrt]
  · intro conns cd settings now exp hexp hexpired hrt hcid hcsec
    simp only [refresh_google_token_if_needed, hexp]
    rw [if_neg (by omega), if_neg (by simp [hrt]),
        if_neg (by simp [hcid, hcsec])]
  · intro conns cd settings now newTok exp hexp hexpired hrt hcid hcsec
    simp only [refresh_google_token_if_needed, hexp]
    rw [if_neg (by omega), if_neg (by simp [hrt]),
        if_neg (by simp [hcid, hcsec])]
  · intro conns userId settings now exchange cd hfind hnone
    simp only [get_gmail_service, hfind, hnone]
    rfl

/-- Witness for C6's amended theorem at concrete connections: a valid
credential passes through; an expired one without refresh credential or
with a failing exchange fails closed; a successful exchange is
persisted; and `get_gmail_service` surfaces the failure. -/
theorem C6_witness :
    refresh_google_token_if_needed [connG] connG settings0 0 none =
      (connG.accessToken, [connG]) ∧
    refresh_google_token_if_needed [connStale] connStale settings0 1000
        none = (none, [connStale]) ∧
    refresh_google_token_if_needed [connExpired] connExpired settings0 1000
        none = (none, [connExpired]) ∧
    refresh_google_token_if_needed [connExpired] connExpired settings0 1000
        (some "new-tok") =
      (some "new-tok",
       updateWhere (fun c => c.userId == connExpired.userId &&
           decide (c.provider = "google"))
         (fun c => { c with accessToken := some "new-tok",
                            tokenExpiresAt := some (1000 + 3600) })
         [connExpired]) ∧
    (get_gmail_service [connStale] 8 settings0 1000 none).1 = none :=
  ⟨C6_amended_refresh_checks_and_fails_closed.1 [connG] connG settings0 0
     none 10000 rfl (by decide),
   C6_amended_refresh_checks_and_fails_closed.2.1 [connStale] connStale
     settings0 1000 none 0 rfl (by decide) rfl,
   C6_amended_refresh_checks_and_fails_closed.2.2.1 [connExpired]
     connExpired settings0 1000 1000 rfl (by decide) rfl rfl rfl,
   C6_amended_refresh_checks_and_fails_closed.2.2.2.1 [connExpired]
     connExpired settings0 1000 "new-tok" 1000 rfl (by decide) rfl rfl rfl,
   C6_amended_refresh_checks_and_fails_closed.2.2.2.2 [connStale] 8
     settings0 1000 none connStale (by decide) rfl⟩

/-! ## C7 -/

/-- C7: applying an upstream "label added: STARRED" change to a stored
email (whose flags are consistent with its label list) sets the row's
starred flag to true and touches nothing else: the table update rewrites
only the matched row, replacing exactly its label list (now including
STARRED), its recomputed-but-unchanged read flag, its starred flag, and
— on the `notification_processor.update_email_labels` path — the
bookkeeping `updated_at` stamp; every other field and row is untouched.
Both label-add paths are covered. -/
theorem C7_starred_label_add_sets_flag_and_preserves_rest :
    (∀ (emails : List EmailRow) (userId : Nat) (msgId : String) (now : Int)
       (e : EmailRow) (rest : List EmailRow),
      emails.filter (fun r => r.userId == userId && r.externalId == msgId) =
        e :: rest →
      e.isRead = !(e.labels.contains "UNREAD") →
      update_email_labels emails userId msgId ["STARRED"] "add" now =
        updateWhere (fun r => r.rowId == e.rowId)
          (fun r => { r with labels := pySet (e.labels ++ ["STARRED"]),
                             isRead := e.isRead, isStarred := true,
                             updatedAt := some now }) emails) ∧
    (∀ (emails : List EmailRow) (userId : Nat) (msgId : String)
       (e : EmailRow) (rest : List EmailRow),
      emails.filter (fun r => r.userId == userId && r.externalId == msgId) =
        e :: rest →
      e.isRead = !(e.labels.contains "UNREAD") →
      historyLabelAdd emails userId ⟨msgId, ["STARRED"]⟩ =
        (updateWhere (fun r => r.userId == userId && r.externalId == msgId)
          (fun r => { r with labels := pySet (e.labels ++ ["STARRED"]),
                             isRead := e.isRead, isStarred := true })
          emails, 1)) := by
  have hstar : ∀ ls : List String,
      (pySet (ls ++ ["STARRED"])).contains "STARRED" = true := by
    intro ls
    rw [pySet_contains]
    simp [List.contains, List.elem_eq_mem]
  have hunread : ∀ ls : List String,
      (pySet (ls ++ ["STARRED"])).contains "UNREAD" = ls.contains "UNREAD" := by
    intro ls
    rw [pySet_contains]
    simp [List.contains, List.elem_eq_mem]
  constructor
  · intro emails userId msgId now e rest h hcons
    have h2 : (!((pySet (e.labels ++ ["STARRED"])).contains "UNREAD")) =
        e.isRead := by rw [hunread, hcons]
    simp only [update_email_labels, h]
    simp only [reduceIte, hstar, h2]
  · intro emails userId msgId e rest h hcons
    have h2 : (!((pySet (e.labels ++ ["STARRED"])).contains "UNREAD")) =
        e.isRead := by rw [hunread, hcons]
    simp only [historyLabelAdd, h]
    simp only [hstar, h2]

/-- Witness for C7 at a one-row table holding an unread, unstarred
email. -/
theorem C7_witness :
    update_email_labels [emailRow1] 7 "m-1" ["STARRED"] "add" 9 =
      updateWhere (fun r => r.rowId == emailRow1.rowId)
        (fun r => { r with labels := pySet (emailRow1.labels ++ ["STARRED"]),
                           isRead := emailRow1.isRead, isStarred := true,
                           updatedAt := some 9 }) [emailRow1] ∧
    historyLabelAdd [emailRow1] 7 ⟨"m-1", ["STARRED"]⟩ =
      (updateWhere (fun r => r.userId == 7 && r.externalId == "m-1")
        (fun r => { r with labels := pySet (emailRow1.labels ++ ["STARRED"]),
                           isRead := emailRow1.isRead, isStarred := true })
        [emailRow1], 1) :=
  ⟨C7_starred_label_add_sets_flag_and_preserves_rest.1 [emailRow1] 7 "m-1" 9
     emailRow1 [] rfl rfl,
   C7_starred_label_add_sets_flag_and_preserves_rest.2 [emailRow1] 7 "m-1"
     emailRow1 [] rfl rfl⟩

/-! ## C9 -/

theorem syncGmailLoop_all_flags (userId connId : Nat) (now : Int)
    (msgs : List (Option GmailMessage)) :
    ∀ (emails : List EmailRow) (nextRowId : Nat),
      emails.all flagsConsistentB = true →
      (syncGmailLoop userId connId now msgs emails nextRowId).1.all
        flagsConsistentB = true := by
  induction msgs with
  | nil => intro emails n h; exact h
  | cons om rest ih =>
    intro emails n h
    cases om with
    | none => exact ih emails n h
    | some m =>
      have hup : (gmailUpsertMessage emails n userId connId m.id m
          now).1.all flagsConsistentB = true := by
        simp only [gmailUpsertMessage]
        cases hE : emails.filter
            (fun r => r.userId == userId && r.externalId == m.id) with
        | nil =>
          simp only []
          rw [List.all_append]
          simp [h, flagsConsistentB]
        | cons e rest2 =>
          simp only []
          exact all_updateWhere h (fun x hx => by simp [flagsConsistentB])
      exact ih _ _ hup

/-- C9: every email write performed by the sync machinery keeps the
stored flags consistent with the stored label list — `is_read` iff
`UNREAD` is absent and `is_starred` iff `STARRED` is present: the
initial/history store `store_email_from_message`, the label update
`update_email_labels` (either action), and the full `sync_gmail` run all
preserve `flagsConsistentB` across the `emails` table. -/
theorem C9_flags_follow_labels :
    (∀ (emails : List EmailRow) (nextRowId userId connId : Nat)
       (m : GmailMessage) (now : Int),
      emails.all flagsConsistentB = true →
      ((store_email_from_message emails nextRowId userId connId m
          now).1.all flagsConsistentB) = true) ∧
    (∀ (emails : List EmailRow) (userId : Nat) (msgId : String)
       (labels : List String) (action : String) (now : Int),
      emails.all flagsConsistentB = true →
      ((update_email_labels emails userId msgId labels action now).all
        flagsConsistentB) = true) ∧
    (∀ (emails : List EmailRow) (conns : List ConnRow)
       (nextRowId userId connId : Nat) (msgs : List (Option GmailMessage))
       (now : Int),
      emails.all flagsConsistentB = true →
      ((sync_gmail emails conns nextRowId userId connId msgs now).2.1.all
        flagsConsistentB) = true) := by
  refine ⟨?_, ?_, ?_⟩
  · intro emails nextRowId userId connId m now hall
    simp only [store_email_from_message]
    cases hE : emails.filter
        (fun r => r.userId == userId && r.externalId == m.id) with
    | nil =>
      simp only []
      rw [List.all_append]
      simp [hall, flagsConsistentB]
    | cons e rest =>
      simp only []
      exact all_updateWhere hall (fun x hx => by simp [flagsConsistentB])
  · intro emails userId msgId labels action now hall
    simp only [update_email_labels]
    cases hE : emails.filter
        (fun r => r.userId == userId && r.externalId == msgId) with
    | nil => exact hall
    | cons e rest =>
      simp only []
      exact all_updateWhere hall (fun x hx => by simp [flagsConsistentB])
  · intro emails conns nextRowId userId connId msgs now hall
    simp only [sync_gmail]
    by_cases hM : msgs.isEmpty
    · rw [if_pos hM]
      exact hall
    · rw [if_neg hM]
      exact syncGmailLoop_all_flags userId connId now msgs emails nextRowId
        hall

/-- Witness for C9 over a one-row consistent table: a history store, a
label update, and a two-message sync run (one fetch failing). -/
theorem C9_witness :
    ((store_email_from_message [emailRow1] 2 7 3 msg1 9).1.all
      flagsConsistentB) = true ∧
    ((update_email_labels [emailRow1] 7 "m-1" ["STARRED"] "add" 9).all
      flagsConsistentB) = true ∧
    ((sync_gmail [emailRow1] [connG] 2 7 3 [some msg1, none] 9).2.1.all
      flagsConsistentB) = true :=
  ⟨C9_flags_follow_labels.1 [emailRow1] 2 7 3 msg1 9 rfl,
   C9_flags_follow_labels.2.1 [emailRow1] 7 "m-1" ["STARRED"] "add" 9 rfl,
   C9_flags_follow_labels.2.2 [emailRow1] [connG] 2 7 3 [some msg1, none] 9
     rfl⟩

/-! ## C1 : supporting lemmas -/

theorem length_filter_updateWhere_le {l : List α} {p : α → Bool}
    {f : α → α} {q : α → Bool} (hf : ∀ x, q (f x) = true → q x = true) :
    ((updateWhere p f l).filter q).length ≤ (l.filter q).length := by
  induction l with
  | nil => simp [updateWhere]
  | cons x xs ih =>
    simp only [updateWhere, List.map_cons, List.filter_cons] at ih ⊢
    by_cases hpx : p x = true
    · rw [if_pos hpx]
      by_cases hqf : q (f x) = true
      · rw [if_pos hqf, if_pos (hf x hqf)]
        simpa using ih
      · rw [if_neg hqf]
        by_cases hqx : q x = true
        · rw [if_pos hqx]
          exact le_trans ih (Nat.le_succ _)
        · rw [if_neg hqx]
          exact ih
    · rw [if_neg hpx]
      by_cases hqx : q x = true
      · rw [if_pos hqx, if_pos hqx]
        simpa using ih
      · rw [if_neg hqx, if_neg hqx]
        exact ih

theorem length_filter_deactivate_zero {l : List SubRow} {sid : Nat}
    {u : Nat} {p : Provider}
    (h : ∀ r ∈ l, isActiveFor u p r = true → r.id = sid) :
    ((updateWhere (fun r => r.id == sid)
        (fun r => { r with isActive := false }) l).filter
      (isActiveFor u p)).length = 0 := by
  rw [List.length_eq_zero, List.filter_eq_nil]
  intro r hr
  obtain ⟨x, hx, hrx⟩ := mem_updateWhere hr
  by_cases hpx : (x.id == sid) = true
  · rw [if_pos hpx] at hrx
    rw [hrx]
    simp [isActiveFor]
  · rw [if_neg hpx] at hrx
    rw [hrx]
    intro hact
    exact hpx (by simp [h x hx hact])

theorem length_filter_append_single (l : List α) (q : α → Bool) (x : α) :
    ((l ++ [x]).filter q).length =
      (l.filter q).length + (if q x then 1 else 0) := by
  rw [List.filter_append]
  by_cases hq : q x = true
  · simp [List.filter_cons, hq]
  · simp [List.filter_cons, hq]

theorem stop_gmail_activeSubs_le (db : WatchDB) (uu : Nat) (hc pf : Bool)
    (u : Nat) (p : Provider) :
    (activeSubs (stop_gmail_watch db uu hc pf).2 u p).length ≤
      (activeSubs db u p).length := by
  simp only [stop_gmail_watch]
  cases hc with
  | false => simp
  | true =>
    simp only [Bool.not_true]
    cases hA : activeSubs db uu .gmail with
    | nil => simp
    | cons sub rest =>
      simp only [activeSubs, deactivateSub]
      exact length_filter_updateWhere_le
        (fun x hx => by simp [isActiveFor] at hx)

theorem stop_calendar_activeSubs_le (db : WatchDB) (uu : Nat)
    (hc pf : Bool) (u : Nat) (p : Provider) :
    (activeSubs (stop_calendar_watch db uu hc pf).2 u p).length ≤
      (activeSubs db u p).length := by
  simp only [stop_calendar_watch]
  cases hc with
  | false => simp
  | true =>
    simp only [Bool.not_true]
    cases hA : activeSubs db uu .calendar with
    | nil => simp
    | cons sub rest =>
      simp only [activeSubs, deactivateSub]
      exact length_filter_updateWhere_le
        (fun x hx => by simp [isActiveFor] at hx)

theorem stop_gmail_activeSubs_zero (db : WatchDB) (uu : Nat) (pf : Bool)
    (hinv : (activeSubs db uu .gmail).length ≤ 1) :
    (activeSubs (stop_gmail_watch db uu true pf).2 uu .gmail).length = 0 := by
  simp only [stop_gmail_watch, Bool.not_true]
  cases hA : activeSubs db uu .gmail with
  | nil =>
    simpa [activeSubs] using congrArg List.length hA
  | cons sub rest =>
    have hrest : rest = [] := by
      rw [hA, List.length_cons] at hinv
      exact List.length_eq_zero.mp (by omega)
    subst hrest
    simp only [activeSubs, deactivateSub]
    refine length_filter_deactivate_zero ?_
    intro r hr hact
    have : r ∈ activeSubs db uu .gmail :=
      List.mem_filter.mpr ⟨hr, hact⟩
    rw [hA] at this
    rw [List.mem_singleton.mp this]

theorem stop_calendar_activeSubs_zero (db : WatchDB) (uu : Nat) (pf : Bool)
    (hinv : (activeSubs db uu .calendar).length ≤ 1) :
    (activeSubs (stop_calendar_watch db uu true pf).2 uu .calendar).length =
      0 := by
  simp only [stop_calendar_watch, Bool.not_true]
  cases hA : activeSubs db uu .calendar with
  | nil =>
    simpa [activeSubs] using congrArg List.length hA
  | cons sub rest =>
    have hrest : rest = [] := by
      rw [hA, List.length_cons] at hinv
      exact List.length_eq_zero.mp (by omega)
    subst hrest
    simp only [activeSubs, deactivateSub]
    refine length_filter_deactivate_zero ?_
    intro r hr hact
    have : r ∈ activeSubs db uu .calendar :=
      List.mem_filter.mpr ⟨hr, hact⟩
    rw [hA] at this
    rw [List.mem_singleton.mp this]

theorem start_db1_gmail_zero (db : WatchDB) (uu : Nat) (sf : Bool)
    (hinv : (activeSubs db uu .gmail).length ≤ 1) :
    (activeSubs (if (!(activeSubs db uu .gmail).isEmpty) = true then
        (stop_gmail_watch db uu true sf).2 else db) uu .gmail).length =
      0 := by
  by_cases hEx : (activeSubs db uu .gmail).isEmpty = true
  · rw [hEx]
    simp only [Bool.not_true, Bool.false_eq_true, if_false]
    simpa [activeSubs] using congrArg List.length (List.isEmpty_iff.mp hEx)
  · rw [Bool.eq_false_iff.mpr hEx]
    simp only [Bool.not_false, if_pos]
    exact stop_gmail_activeSubs_zero db uu sf hinv

theorem start_db1_calendar_zero (db : WatchDB) (uu : Nat) (sf : Bool)
    (hinv : (activeSubs db uu .calendar).length ≤ 1) :
    (activeSubs (if (!(activeSubs db uu .calendar).isEmpty) = true then
        (stop_calendar_watch db uu true sf).2 else db) uu
      .calendar).length = 0 := by
  by_cases hEx : (activeSubs db uu .calendar).isEmpty = true
  · rw [hEx]
    simp only [Bool.not_true, Bool.false_eq_true, if_false]
    simpa [activeSubs] using congrArg List.length (List.isEmpty_iff.mp hEx)
  · rw [Bool.eq_false_iff.mpr hEx]
    simp only [Bool.not_false, if_pos]
    exact stop_calendar_activeSubs_zero db uu sf hinv

theorem start_db1_gmail_le (db : WatchDB) (uu : Nat) (sf : Bool)
    (u : Nat) (p : Provider) :
    (activeSubs (if (!(activeSubs db uu .gmail).isEmpty) = true then
        (stop_gmail_watch db uu true sf).2 else db) u p).length ≤
      (activeSubs db u p).length := by
  by_cases hEx : (!(activeSubs db uu .gmail).isEmpty) = true
  · rw [if_pos hEx]
    exact stop_gmail_activeSubs_le db uu true sf u p
  · rw [if_neg hEx]

theorem start_db1_calendar_le (db : WatchDB) (uu : Nat) (sf : Bool)
    (u : Nat) (p : Provider) :
    (activeSubs (if (!(activeSubs db uu .calendar).isEmpty) = true then
        (stop_calendar_watch db uu true sf).2 else db) u p).length ≤
      (activeSubs db u p).length := by
  by_cases hEx : (!(activeSubs db uu .calendar).isEmpty) = true
  · rw [if_pos hEx]
    exact stop_calendar_activeSubs_le db uu true sf u p
  · rw [if_neg hEx]

theorem isActiveFor_ne {u uu : Nat} {p pp : Provider} (x : SubRow)
    (hx1 : x.userId = uu) (hx2 : x.provider = pp)
    (hne : ¬(uu = u ∧ pp = p)) : isActiveFor u p x = false := by
  simp only [isActiveFor, decide_eq_false_iff_not]
  rintro ⟨a, b, _⟩
  exact hne ⟨hx1 ▸ a, hx2 ▸ b⟩

theorem start_gmail_preserves (db : WatchDB) (uu c : Nat) (sf : Bool)
    (ch : String) (resp : Option GmailWatchResponse) (n : Int)
    (hinv : ∀ u p, (activeSubs db u p).length ≤ 1) :
    ∀ u p, (activeSubs (start_gmail_watch db uu c true sf ch resp
      n).2 u p).length ≤ 1 := by
  intro u p
  have hle := start_db1_gmail_le db uu sf u p
  have h0 := start_db1_gmail_zero db uu sf (hinv uu .gmail)
  simp only [start_gmail_watch, Bool.not_true, reduceIte]
  cases resp with
  | none => exact le_trans hle (hinv u p)
  | some r =>
    simp only [activeSubs] at h0 hle ⊢
    change (List.filter (isActiveFor u p) (_ ++ [_])).length ≤ 1
    rw [length_filter_append_single]
    by_cases hup : uu = u ∧ Provider.gmail = p
    · obtain ⟨h1, h2⟩ := hup
      subst h1
      subst h2
      rw [h0]
      simp [isActiveFor]
    · rw [isActiveFor_ne _ rfl rfl hup]
      simpa using le_trans hle (hinv u p)

theorem start_calendar_preserves (db : WatchDB) (uu c : Nat) (sf : Bool)
    (ch : String) (resp : Option CalendarWatchResponse)
    (tok : Option String) (n : Int)
    (hinv : ∀ u p, (activeSubs db u p).length ≤ 1) :
    ∀ u p, (activeSubs (start_calendar_watch db uu c true sf ch resp tok
      n).2 u p).length ≤ 1 := by
  intro u p
  have hle := start_db1_calendar_le db uu sf u p
  have h0 := start_db1_calendar_zero db uu sf (hinv uu .calendar)
  simp only [start_calendar_watch, Bool.not_true, reduceIte]
  cases resp with
  | none => exact le_trans hle (hinv u p)
  | some r =>
    simp only [activeSubs] at h0 hle ⊢
    change (List.filter (isActiveFor u p) (_ ++ [_])).length ≤ 1
    rw [length_filter_append_single]
    by_cases hup : uu = u ∧ Provider.calendar = p
    · obtain ⟨h1, h2⟩ := hup
      subst h1
      subst h2
      rw [h0]
      simp [isActiveFor]
    · rw [isActiveFor_ne _ rfl rfl hup]
      simpa using le_trans hle (hinv u p)

theorem start_gmail_success_exact (db : WatchDB) (uu c : Nat) (sf : Bool)
    (ch : String) (r : GmailWatchResponse) (n : Int)
    (hinv : ∀ u p, (activeSubs db u p).length ≤ 1) :
    (activeSubs (start_gmail_watch db uu c true sf ch (some r) n).2 uu
      .gmail).length = 1 := by
  have h0 := start_db1_gmail_zero db uu sf (hinv uu .gmail)
  simp only [start_gmail_watch, Bool.not_true, reduceIte]
  simp only [activeSubs] at h0 ⊢
  change (List.filter (isActiveFor uu Provider.gmail) (_ ++ [_])).length = 1
  rw [length_filter_append_single, h0]
  simp [isActiveFor]

theorem start_calendar_success_exact (db : WatchDB) (uu c : Nat)
    (sf : Bool) (ch : String) (r : CalendarWatchResponse)
    (tok : Option String) (n : Int)
    (hinv : ∀ u p, (activeSubs db u p).length ≤ 1) :
    (activeSubs (start_calendar_watch db uu c true sf ch (some r) tok
      n).2 uu .calendar).length = 1 := by
  have h0 := start_db1_calendar_zero db uu sf (hinv uu .calendar)
  simp only [start_calendar_watch, Bool.not_true, reduceIte]
  simp only [activeSubs] at h0 ⊢
  change (List.filter (isActiveFor uu Provider.calendar) (_ ++ [_])).length = 1
  rw [length_filter_append_single, h0]
  simp [isActiveFor]

theorem applyWatchOp_preserves (db : WatchDB) (op : WatchOp)
    (hinv : ∀ u p, (activeSubs db u p).length ≤ 1) :
    ∀ u p, (activeSubs (applyWatchOp db op) u p).length ≤ 1 := by
  cases op with
  | startGmail uu c hc sf ch resp n =>
    cases hc with
    | false => intro u p; exact hinv u p
    | true => exact start_gmail_preserves db uu c sf ch resp n hinv
  | startCalendar uu c hc sf ch resp tok n =>
    cases hc with
    | false => intro u p; exact hinv u p
    | true => exact start_calendar_preserves db uu c sf ch resp tok n hinv
  | stopGmail uu hc pf =>
    intro u p
    exact le_trans (stop_gmail_activeSubs_le db uu hc pf u p) (hinv u p)
  | stopCalendar uu hc pf =>
    intro u p
    exact le_trans (stop_calendar_activeSubs_le db uu hc pf u p) (hinv u p)
  | renew uu c hc sf ch gr cr tok n prov =>
    cases prov with
    | gmail =>
      cases hc with
      | false => intro u p; exact hinv u p
      | true => exact start_gmail_preserves db uu c sf ch gr n hinv
    | calendar =>
      cases hc with
      | false => intro u p; exact hinv u p
      | true => exact start_calendar_preserves db uu c sf ch cr tok n hinv

theorem runWatchOps_preserves (ops : List WatchOp) :
    ∀ db : WatchDB, (∀ u p, (activeSubs db u p).length ≤ 1) →
      ∀ u p, (activeSubs (runWatchOps db ops) u p).length ≤ 1 := by
  induction ops with
  | nil => exact fun db h => h
  | cons op rest ih =>
    intro db h
    exact ih (applyWatchOp db op) (applyWatchOp_preserves db op h)

/-- C1: starting from an empty store, any sequence of watch-manager
calls — starts, renews and stops, with arbitrary provider outcomes,
including failing best-effort stops of the prior watch — leaves at most
one active Subscription row per (user, resource-kind); and a successful
start (connection present, provider watch call succeeded) leaves exactly
one active row for its key, the prior one having been deactivated
first. -/
theorem C1_at_most_one_active_subscription :
    (∀ (ops : List WatchOp) (u : Nat) (p : Provider),
      (activeSubs (runWatchOps emptyWatchDB ops) u p).length ≤ 1) ∧
    (∀ (ops : List WatchOp) (u c : Nat) (sf : Bool) (ch : String)
       (r : GmailWatchResponse) (n : Int),
      (activeSubs (applyWatchOp (runWatchOps emptyWatchDB ops)
        (.startGmail u c true sf ch (some r) n)) u .gmail).length = 1) ∧
    (∀ (ops : List WatchOp) (u c : Nat) (sf : Bool) (ch : String)
       (r : CalendarWatchResponse) (tok : Option String) (n : Int),
      (activeSubs (applyWatchOp (runWatchOps emptyWatchDB ops)
        (.startCalendar u c true sf ch (some r) tok n)) u
        .calendar).length = 1) := by
  have hempty : ∀ u p, (activeSubs emptyWatchDB u p).length ≤ 1 := by
    intro u p
    simp [activeSubs, emptyWatchDB]
  refine ⟨?_, ?_, ?_⟩
  · intro ops u p
    exact runWatchOps_preserves ops emptyWatchDB hempty u p
  · intro ops u c sf ch r n
    exact start_gmail_success_exact (runWatchOps emptyWatchDB ops) u c sf
      ch r n (runWatchOps_preserves ops emptyWatchDB hempty)
  · intro ops u c sf ch r tok n
    exact start_calendar_success_exact (runWatchOps emptyWatchDB ops) u c
      sf ch r tok n (runWatchOps_preserves ops emptyWatchDB hempty)

end CoreApi
